import Mathlib

/-!
Verification development for the FINOVA personal-finance application.

The definitions below are a shallow embedding of the TypeScript source:
  - `src/src/pages/Settings.tsx` (AIService, AIServiceHuggingFace, StorageService),
  - `src/src/components/BudgetSummary.tsx`,
  - the authentication form (`handleSignIn` / `handleSignUp`).

Modelling conventions:
  - JavaScript numbers are modelled by `JsNum`: exact rationals plus the
    non-finite values `NaN`, `Infinity`, `-Infinity` produced by division by
    zero.  Floating-point rounding is idealised away (no claim here depends
    on double precision), but the NaN / Infinity propagation rules of JS
    arithmetic and comparison are kept.
  - The browser local storage is a map from string keys to structured
    values (`Json`); `JSON.stringify` / `JSON.parse` are modelled by the
    entity encoders/decoders into that `Json` type.
  - `Math.random()` draws are passed in explicitly (a `Fin 3` index for the
    greeting choice), and the remote HTTP call of the Hugging Face adapter
    is an oracle parameter (`FetchResult`).
-/

namespace Finova

/-! ## JavaScript number model -/

/-- JS `number`, restricted to the values this program produces: exact
rationals plus the non-finite values (idealising away binary-float rounding,
keeping NaN/Infinity propagation). -/
inductive JsNum where
  | fin (q : ℚ)
  | nan
  | inf
  | ninf
deriving DecidableEq, Repr

namespace JsNum

/-- JS subtraction, with NaN/Infinity propagation. -/
def sub : JsNum → JsNum → JsNum
  | fin a, fin b => fin (a - b)
  | nan, _ => nan
  | _, nan => nan
  | inf, inf => nan
  | inf, _ => inf
  | ninf, ninf => nan
  | ninf, _ => ninf
  | fin _, inf => ninf
  | fin _, ninf => inf

/-- JS multiplication, with NaN/Infinity propagation (signed zeros ignored). -/
def mul : JsNum → JsNum → JsNum
  | fin a, fin b => fin (a * b)
  | nan, _ => nan
  | _, nan => nan
  | inf, inf => inf
  | inf, ninf => ninf
  | ninf, inf => ninf
  | ninf, ninf => inf
  | inf, fin b => if b = 0 then nan else if 0 < b then inf else ninf
  | fin a, inf => if a = 0 then nan else if 0 < a then inf else ninf
  | ninf, fin b => if b = 0 then nan else if 0 < b then ninf else inf
  | fin a, ninf => if a = 0 then nan else if 0 < a then ninf else inf

/-- JS division; division of a finite number by zero yields NaN or a signed
infinity exactly as in JS (`0/0 = NaN`, `x/0 = ±Infinity`). -/
def div : JsNum → JsNum → JsNum
  | fin a, fin b =>
      if b = 0 then (if a = 0 then nan else if 0 < a then inf else ninf)
      else fin (a / b)
  | nan, _ => nan
  | _, nan => nan
  | inf, inf => nan
  | inf, ninf => nan
  | ninf, inf => nan
  | ninf, ninf => nan
  | inf, fin b => if 0 ≤ b then inf else ninf
  | ninf, fin b => if 0 ≤ b then ninf else inf
  | fin _, inf => fin 0
  | fin _, ninf => fin 0

/-- JS `<` comparison: any comparison with NaN is false. -/
def lt : JsNum → JsNum → Bool
  | fin a, fin b => decide (a < b)
  | nan, _ => false
  | _, nan => false
  | inf, _ => false
  | ninf, ninf => false
  | ninf, _ => true
  | fin _, inf => true
  | fin _, ninf => false

/-- JS `>=` comparison: any comparison with NaN is false. -/
def ge : JsNum → JsNum → Bool
  | fin a, fin b => decide (b ≤ a)
  | nan, _ => false
  | _, nan => false
  | inf, _ => true
  | ninf, ninf => true
  | ninf, _ => false
  | fin _, inf => false
  | fin _, ninf => true

/-- JS `>` comparison: any comparison with NaN is false. -/
def gt : JsNum → JsNum → Bool
  | fin a, fin b => decide (b < a)
  | nan, _ => false
  | _, nan => false
  | inf, inf => false
  | inf, _ => true
  | ninf, _ => false
  | fin _, ninf => true
  | fin _, inf => false

end JsNum

/-- Rounding used by `toFixed(1)` on a nonnegative rational: the integer
closest to `q * 10`, ties towards the larger integer. -/
def round10 (q : ℚ) : ℕ := (⌊q * 10 + 1 / 2⌋).toNat

/-- `Number.prototype.toFixed(1)` on a finite value, idealised to exact
rationals: round to one decimal (ties away from zero, as the ECMA algorithm
applied to the magnitude) and render with exactly one fractional digit. -/
def ratToFixed1 (q : ℚ) : String :=
  if q < 0 then
    "-" ++ toString (round10 (-q) / 10) ++ "." ++ toString (round10 (-q) % 10)
  else
    toString (round10 q / 10) ++ "." ++ toString (round10 q % 10)

/-- `toFixed(1)` on a JS number: non-finite values render as their
`ToString` image, exactly as in ECMA `Number.prototype.toFixed`. -/
def JsNum.toFixed1 : JsNum → String
  | .fin q => ratToFixed1 q
  | .nan => "NaN"
  | .inf => "Infinity"
  | .ninf => "-Infinity"

/-- Insert a comma after every group of three digits, working on the
reversed digit list. -/
def commaRev : List Char → List Char
  | a :: b :: c :: d :: rest => a :: b :: c :: ',' :: commaRev (d :: rest)
  | l => l

/-- Thousands grouping of a digit string, as `toLocaleString` (en-US) does. -/
def groupThousands (s : String) : String :=
  ⟨(commaRev s.data.reverse).reverse⟩

/-- `Number.prototype.toLocaleString()` (en-US defaults) on a nonnegative
rational: at most three fraction digits, thousands separators. -/
def ratToLocaleNonneg (q : ℚ) : String :=
  let m : ℕ := (⌊q * 1000 + 1 / 2⌋).toNat
  let ip : ℕ := m / 1000
  let fp : ℕ := m % 1000
  let intStr := groupThousands (toString ip)
  if fp = 0 then intStr
  else
    let d1 := fp / 100
    let d2 := fp / 10 % 10
    let d3 := fp % 10
    if d3 = 0 then
      if d2 = 0 then intStr ++ "." ++ toString d1
      else intStr ++ "." ++ toString d1 ++ toString d2
    else intStr ++ "." ++ toString d1 ++ toString d2 ++ toString d3

/-- `toLocaleString()` on a rational (sign handled separately). -/
def ratToLocale (q : ℚ) : String :=
  if q < 0 then "-" ++ ratToLocaleNonneg (-q) else ratToLocaleNonneg q

/-- `toLocaleString()` on a JS number (en-US renders the non-finite values
as `∞` / `-∞` / `NaN`). -/
def JsNum.toLocale : JsNum → String
  | .fin q => ratToLocale q
  | .nan => "NaN"
  | .inf => "∞"
  | .ninf => "-∞"

/-! ## JavaScript string helpers -/

/-- Is `p` a prefix of `l`? -/
def charsPrefix : List Char → List Char → Bool
  | [], _ => true
  | _ :: _, [] => false
  | a :: as, b :: bs => a == b && charsPrefix as bs

/-- Does `l` contain `p` as a contiguous run?  (`String.prototype.includes`.) -/
def charsContains (p : List Char) : List Char → Bool
  | [] => charsPrefix p []
  | l@(_ :: rest) => charsPrefix p l || charsContains p rest

/-- `haystack.includes(needle)`. -/
def strContains (s pat : String) : Bool :=
  charsContains pat.data s.data

/-- `String.prototype.toLowerCase` (ASCII; the app only manipulates ASCII
keywords). -/
def jsToLower (s : String) : String :=
  ⟨s.data.map Char.toLower⟩

/-- `String.prototype.trim` (common whitespace characters). -/
def jsTrim (s : String) : String :=
  ⟨((s.data.dropWhile Char.isWhitespace).reverse.dropWhile Char.isWhitespace).reverse⟩

/-- Replace every occurrence of the pattern `p` (non-empty) by `r`, scanning
left to right without overlap — `String.prototype.replace` with a global
regex of a literal pattern. -/
def replaceAllChars (p r : List Char) : List Char → List Char
  | [] => []
  | c :: rest =>
    if charsPrefix p (c :: rest) && !p.isEmpty then
      r ++ replaceAllChars p r (rest.drop (p.length - 1))
    else
      c :: replaceAllChars p r rest
termination_by l => l.length
decreasing_by
  · simp only [List.length_cons]
    have := List.length_drop (p.length - 1) rest
    omega
  · simp

/-- `s.replace(/pat/g, rep)` for a literal pattern. -/
def jsReplaceAll (s pat rep : String) : String :=
  ⟨replaceAllChars pat.data rep.data s.data⟩

/-- `String.prototype.split` on a non-empty literal separator. -/
def splitOnChars (p : List Char) : List Char → List (List Char)
  | [] => [[]]
  | c :: rest =>
    if charsPrefix p (c :: rest) && !p.isEmpty then
      [] :: splitOnChars p (rest.drop (p.length - 1))
    else
      match splitOnChars p rest with
      | seg :: segs => (c :: seg) :: segs
      | [] => [[c]]
termination_by l => l.length
decreasing_by
  · simp only [List.length_cons]
    have := List.length_drop (p.length - 1) rest
    omega
  · simp

/-- `s.split(sep)`. -/
def jsSplit (s sep : String) : List String :=
  (splitOnChars sep.data s.data).map (fun l => ⟨l⟩)

/-- `array.join(sep)` for a string array and the one-space separator. -/
def joinSpace : List String → String
  | [] => ""
  | [x] => x
  | x :: xs => x ++ " " ++ joinSpace xs

/-- `array.join(", ")`. -/
def joinCommaSpace : List String → String
  | [] => ""
  | [x] => x
  | x :: xs => x ++ ", " ++ joinCommaSpace xs

/-- `fullName.split(' ')[0]` — the leading run up to the first space. -/
def firstName (s : String) : String :=
  ⟨s.data.takeWhile (· ≠ ' ')⟩

/-- `array.slice(-n)`: the last `n` elements (the whole list when shorter). -/
def jsSliceLast (n : ℕ) (l : List α) : List α :=
  l.drop (l.length - n)

/-- `parseFloat`, for the strings the app feeds it (`toFixed` output and the
literals `NaN` / `±Infinity`): optional sign, `Infinity`, or a decimal
number; anything unparsable is NaN. -/
def jsParseFloat (s : String) : JsNum :=
  let l := s.data.dropWhile Char.isWhitespace
  let (neg, l) :=
    match l with
    | '-' :: rest => (true, rest)
    | '+' :: rest => (false, rest)
    | _ => (false, l)
  if charsPrefix "Infinity".data l then
    if neg then .ninf else .inf
  else
    let ds := l.takeWhile Char.isDigit
    let rest := l.dropWhile Char.isDigit
    let fs :=
      match rest with
      | '.' :: r => r.takeWhile Char.isDigit
      | _ => []
    if ds.isEmpty && fs.isEmpty then .nan
    else
      let ip : ℕ := ds.foldl (fun a c => a * 10 + (c.toNat - 48)) 0
      let fpNum : ℕ := fs.foldl (fun a c => a * 10 + (c.toNat - 48)) 0
      let q : ℚ := (ip : ℚ) + (fpNum : ℚ) / ((10 : ℚ) ^ fs.length)
      .fin (if neg then -q else q)

/-! ## Data model (`src/src/pages/Settings.tsx`, storage interfaces) -/

/-- One entry of `FinancialData.expenseBreakdown`. -/
structure BreakdownEntry where
  category : String
  amount : ℚ
  date : String
deriving DecidableEq, Repr

/-- One entry of `FinancialData.incomeHistory`. -/
structure IncomeEntry where
  date : String
  amount : ℚ
deriving DecidableEq, Repr

/-- One entry of `FinancialData.expenseHistory`. -/
structure HistEntry where
  date : String
  amount : ℚ
  category : String
deriving DecidableEq, Repr

/-- The `FinancialData` interface. -/
structure FinancialData where
  totalBalance : ℚ
  monthlyIncome : ℚ
  monthlyExpenses : ℚ
  expenseBreakdown : List BreakdownEntry
  incomeHistory : List IncomeEntry
  expenseHistory : List HistEntry
deriving DecidableEq, Repr

/-- The optional `demographic` record of a `User`; `type` is the runtime
string (`student` / `professional` / `retiree` / `entrepreneur`). -/
structure Demographic where
  type : String
  age : Option ℚ
  location : Option String
  occupation : Option String
deriving DecidableEq, Repr

/-- The `User` interface. -/
structure User where
  id : String
  email : String
  fullName : String
  password : Option String
  demographic : Option Demographic
  financialGoals : Option (List String)
  createdAt : String
deriving DecidableEq, Repr

/-- The `SavingsGoal` interface (`deadline: string | null`). -/
structure SavingsGoal where
  id : String
  name : String
  target_amount : ℚ
  current_amount : ℚ
  deadline : Option String
  createdAt : String
deriving DecidableEq, Repr

/-- The `ChatMessage` interface (`role` kept as its runtime string). -/
structure ChatMessage where
  id : String
  role : String
  content : String
  created_at : String
deriving DecidableEq, Repr

/-- A chat message as stored (`ChatMessage & { userId?: string }`). -/
structure StoredChat where
  id : String
  role : String
  content : String
  created_at : String
  userId : Option String
deriving DecidableEq, Repr

/-- The object returned by `generateBudgetSummary` (`savingsRate` is the
`toFixed(1)` string; `categoryBreakdown` a key-ordered record). -/
structure BudgetSummaryObj where
  monthlyIncome : ℚ
  monthlyExpenses : ℚ
  monthlySavings : ℚ
  savingsRate : String
  categoryBreakdown : List (String × ℚ)
  totalBalance : ℚ
deriving DecidableEq, Repr

/-- The object returned by `generateSpendingInsights`. -/
structure Insights where
  trends : List String
  anomalies : List String
  recommendations : List String
deriving DecidableEq, Repr

/-- The `AIResponse` interface (optional fields as `Option`; the rule-based
service always sends `suggestions` along, the HF adapter's success object
omits it). -/
structure AIResponse where
  content : String
  suggestions : Option (List String)
  budgetSummary : Option BudgetSummaryObj
  insights : Option Insights
deriving DecidableEq, Repr

/-! ## Financial Aggregator (`AIService.generateBudgetSummary`,
`AIService.generateSpendingInsights`) -/

/-- One step of the `expenseBreakdown.reduce` accumulator: add `a` to the
category `c`, keeping first-insertion key order as a JS object does. -/
def bumpCategory : List (String × ℚ) → String → ℚ → List (String × ℚ)
  | [], c, a => [(c, a)]
  | (c', v) :: rest, c, a =>
    if c' = c then (c', v + a) :: rest else (c', v) :: bumpCategory rest c a

/-- `expenseBreakdown.reduce(...)` — group by category, summing amounts. -/
def categoryBreakdown (l : List BreakdownEntry) : List (String × ℚ) :=
  l.foldl (fun acc e => bumpCategory acc e.category e.amount) []

/-- The savings-rate formula `((income - expenses) / income) * 100` as the
JS arithmetic computes it (NaN / ±Infinity when `income = 0`). -/
def savingsRateJs (fd : FinancialData) : JsNum :=
  JsNum.mul (JsNum.div (JsNum.sub (.fin fd.monthlyIncome) (.fin fd.monthlyExpenses))
      (.fin fd.monthlyIncome)) (.fin 100)

/-- `AIService.generateBudgetSummary`. -/
def generateBudgetSummary (fd : FinancialData) : BudgetSummaryObj :=
  { monthlyIncome := fd.monthlyIncome
    monthlyExpenses := fd.monthlyExpenses
    monthlySavings := fd.monthlyIncome - fd.monthlyExpenses
    savingsRate := (savingsRateJs fd).toFixed1
    categoryBreakdown := categoryBreakdown fd.expenseBreakdown
    totalBalance := fd.totalBalance }

/-- Stable insertion into a value-descending list — one step of the JS
stable `sort((a, b) => b[1] - a[1])`. -/
def insertDesc (x : String × ℚ) : List (String × ℚ) → List (String × ℚ)
  | [] => [x]
  | y :: ys => if y.2 < x.2 then x :: y :: ys else y :: insertDesc x ys

/-- `Object.entries(categoryBreakdown).sort((a, b) => b[1] - a[1])` — a
stable descending sort by value. -/
def sortDescByValue (l : List (String × ℚ)) : List (String × ℚ) :=
  l.foldr insertDesc []

/-- `AIService.generateSpendingInsights`: trend, savings-rate, category and
balance heuristics, with the pushes in source order. -/
def generateSpendingInsights (fd : FinancialData) : Insights :=
  let savingsRate := savingsRateJs fd
  let n := fd.expenseHistory.length
  let (t1, r1) :=
    if n > 1 then
      let recentExpenses := ((fd.expenseHistory.drop (n - 3)).map (·.amount)).sum / 3
      let olderExpenses := (((fd.expenseHistory.drop (n - 6)).take ((n - 3) - (n - 6))).map (·.amount)).sum / 3
      if olderExpenses * (11 / 10) < recentExpenses then
        (["Your spending has increased by over 10% in recent months."],
         ["Review your recent expenses to identify areas where you can cut back."])
      else if recentExpenses < olderExpenses * (9 / 10) then
        (["Great job! Your spending has decreased recently."], [])
      else ([], [])
    else ([], [])
  let (t2, r2) :=
    if savingsRate.lt (.fin 10) then
      ([], ["Consider increasing your savings rate to at least 10% of your income."])
    else if savingsRate.ge (.fin 20) then
      (["Excellent savings rate! You\x27re saving 20% or more of your income."], [])
    else ([], [])
  let maxCategory := (sortDescByValue (categoryBreakdown fd.expenseBreakdown)).head?
  let r3 :=
    match maxCategory with
    | some mc =>
      if fd.monthlyExpenses * (2 / 5) < mc.2 then
        [mc.1 ++ " is your largest expense category. Consider reviewing it for optimization opportunities."]
      else []
    | none => []
  let (a4, r4) :=
    if fd.totalBalance < fd.monthlyExpenses * 3 then
      (["Your emergency fund is below 3 months of expenses. Consider building it up."],
       ["Aim to have 3-6 months of expenses saved as an emergency fund."])
    else ([], [])
  { trends := t1 ++ t2
    anomalies := a4
    recommendations := r1 ++ r2 ++ r3 ++ r4 }

/-! ## Advice Dispatcher (`AIService`) -/

/-- `getDemographicTone`: tone and complexity from the demographic type. -/
def getDemographicTone (user : Option User) : String × String :=
  match user with
  | none => ("friendly", "moderate")
  | some u =>
    match u.demographic with
    | none => ("friendly", "moderate")
    | some d =>
      if d.type == "student" then ("casual", "simple")
      else if d.type == "professional" then ("professional", "detailed")
      else if d.type == "retiree" then ("formal", "simple")
      else if d.type == "entrepreneur" then ("professional", "detailed")
      else ("friendly", "moderate")

/-- `generateTaxAdvice` (its `financialData` parameter is unused in the
source and omitted here). -/
def generateTaxAdvice (user : Option User) (tone _cx : String) : String :=
  let response := if tone == "casual" then "Tax tips! üìã\n\n" else "Tax Planning Advice:\n\n"
  let response := response ++ "General tax-saving strategies:\n\n"
    ++ "1. Maximize retirement contributions (401(k), IRA)\n"
    ++ "2. Keep receipts for deductible expenses\n"
    ++ "3. Consider tax-loss harvesting for investments\n"
    ++ "4. Take advantage of tax credits and deductions\n\n"
  let response := response ++
    (match user with
     | some u =>
       match u.demographic with
       | some d =>
         if d.type == "student" then
           "As a student, you may qualify for education credits and deductions. Keep track of tuition and education expenses."
         else if d.type == "professional" then
           "As a professional, consider contributing to retirement accounts and keeping track of work-related expenses."
         else ""
       | none => ""
     | none => "")
  response ++ "\n\nNote: I am providing general advice. Consult a tax professional for personalized guidance."

/-- `generateRetirementAdvice`; the numeric arguments are the
`monthlyIncome` / `monthlyExpenses` fields of the `financialData` argument
(NaN models the `{} as FinancialData` call sites). -/
def generateRetirementAdvice (user : Option User) (mi me : JsNum) (tone _cx : String) : String :=
  let response := if tone == "casual" then "Retirement planning! Let us get you set up.\n\n"
    else "Retirement Planning Advice:\n\n"
  let response := response ++ "Key retirement planning steps:\n\n"
    ++ "1. Start saving early - time is your biggest advantage\n"
    ++ "2. Contribute to employer-sponsored plans (401k, 403b) with matching\n"
    ++ "3. Open an IRA (Traditional or Roth)\n"
    ++ "4. Aim to save 10-15% of your income for retirement\n"
    ++ "5. Diversify your investments\n"
    ++ "6. Consider your retirement timeline\n\n"
  response ++
    (match user with
     | some u =>
       match u.demographic with
       | some d =>
         if d.type == "student" then
           "As a student, starting early gives you a huge advantage. Even small amounts now compound significantly over time."
         else if d.type == "professional" then
           let _monthlySavings := JsNum.sub mi me
           "With your current savings rate, you are setting a good foundation. Consider increasing contributions to retirement accounts."
         else ""
       | none => ""
     | none => "")

/-- `generateGoalsAdvice`. -/
def generateGoalsAdvice (user : Option User) (tone _cx : String) : String :=
  let response := if tone == "casual" then "Let us talk about goals! üéØ\n\n"
    else "Financial Goal Planning:\n\n"
  let response := response ++ "Setting and achieving financial goals:\n\n"
    ++ "1. Make goals SMART (Specific, Measurable, Achievable, Relevant, Time-bound)\n"
    ++ "2. Break large goals into smaller milestones\n"
    ++ "3. Track progress regularly\n"
    ++ "4. Adjust goals as your situation changes\n\n"
  response ++
    (match user with
     | some u =>
       match u.financialGoals with
       | some goals =>
         if goals.length > 0 then
           "Your current goals:\n" ++
             ((goals.enum.map (fun p => toString (p.1 + 1) ++ ". " ++ p.2 ++ "\n")).foldl (· ++ ·) "")
         else "You have not set any financial goals yet. Would you like help creating some?"
       | none => "You have not set any financial goals yet. Would you like help creating some?"
     | none => "You have not set any financial goals yet. Would you like help creating some?")

/-- `generateDebtAdvice`; the numeric arguments are the `monthlyIncome` /
`monthlyExpenses` fields of the `financialData` argument (NaN models the
`{} as FinancialData` call site of `explainDebt`). -/
def generateDebtAdvice (_user : Option User) (mi me : JsNum) (tone _cx : String) : String :=
  let response := if tone == "casual" then "Let us talk about debt management!\n\n"
    else "Debt Management Advice:\n\n"
  let response := response ++ "Effective debt management strategies:\n\n"
    ++ "1. List all your debts with interest rates\n"
    ++ "2. Prioritize high-interest debt (debt avalanche method)\n"
    ++ "3. Or pay off smallest debts first (debt snowball method)\n"
    ++ "4. Consider debt consolidation if applicable\n"
    ++ "5. Make minimum payments on all debts\n"
    ++ "6. Allocate extra funds to priority debt\n\n"
  if JsNum.gt me (JsNum.mul mi (.fin (1 / 2))) then
    response ++ "Based on your current expenses, you may want to review your spending to free up money for debt repayment."
  else
    let available := JsNum.sub mi me
    response ++ "You have about $" ++ available.toLocale ++ " available monthly that could go toward debt repayment."

/-- `generateInvestmentAdvice`. -/
def generateInvestmentAdvice (_user : Option User) (fd : FinancialData) (tone cx : String) : String :=
  let response := if tone == "casual" then "Investment advice! üìà\n\n"
    else "Investment Recommendations:\n\n"
  let response := response ++ "Before investing, ensure you have:\n"
    ++ "1. An emergency fund (3-6 months of expenses)\n"
    ++ "2. High-interest debt paid off\n"
    ++ "3. A stable income source\n\n"
  if fd.totalBalance < fd.monthlyExpenses * 6 then
    response ++ "I recommend building your emergency fund first before investing."
  else
    response ++ "Consider starting with:\n"
      ++ "‚Ä¢ Index funds or ETFs for diversification\n"
      ++ "‚Ä¢ 401(k) or similar retirement accounts if available\n"
      ++ "‚Ä¢ Dollar-cost averaging strategy\n\n"
      ++ (if cx == "detailed" then
            "Remember: All investments carry risk. Consider your risk tolerance and time horizon."
          else "")

/-- `generateSavingsAdvice`. -/
def generateSavingsAdvice (_user : Option User) (fd : FinancialData) (tone cx : String) : String :=
  let savingsRate := savingsRateJs fd
  let monthlySavings := fd.monthlyIncome - fd.monthlyExpenses
  let response := if tone == "casual" then "Here is some savings advice! üí∞\n\n"
    else "Savings Recommendations:\n\n"
  let response := response ++
    (if savingsRate.lt (.fin 10) then
      "Your current savings rate is " ++ savingsRate.toFixed1 ++ "%. The general recommendation is to save at least 10-20% of your income."
    else if savingsRate.lt (.fin 20) then
      "Good job! You are saving " ++ savingsRate.toFixed1 ++ "% of your income. Consider increasing it to 20% for better financial security."
    else
      "Excellent! You are saving " ++ savingsRate.toFixed1 ++ "% of your income. Keep up the great work!")
  let response := response ++ "\n\nYou are currently saving $" ++ ratToLocale monthlySavings ++ " per month."
  if cx == "detailed" then
    response ++ "\n\nHere are some strategies to boost your savings:\n"
      ++ "1. Automate your savings transfers\n"
      ++ "2. Review and reduce unnecessary expenses\n"
      ++ "3. Create a separate savings account for goals\n"
      ++ "4. Track your spending to identify opportunities"
  else response

/-- `generateBudgetResponse`. -/
def generateBudgetResponse (summary : BudgetSummaryObj) (tone cx : String) : String :=
  let greeting := if tone == "casual" then "Here is your budget summary:"
    else if tone == "professional" then "Here is your budget summary:"
    else "Your budget overview:"
  let response := greeting ++ "\n\n"
    ++ "üí∞ Monthly Income: $" ++ ratToLocale summary.monthlyIncome ++ "\n"
    ++ "üí∏ Monthly Expenses: $" ++ ratToLocale summary.monthlyExpenses ++ "\n"
    ++ "üíµ Monthly Savings: $" ++ ratToLocale summary.monthlySavings ++ "\n"
    ++ "üìä Savings Rate: " ++ summary.savingsRate ++ "%\n\n"
  let response := response ++
    (if cx == "detailed" then
      "Current Balance: $" ++ ratToLocale summary.totalBalance ++ "\n"
        ++ (if summary.categoryBreakdown.length > 0 then
              "\nExpense Categories:\n" ++
                ((summary.categoryBreakdown.map (fun p =>
                    let percentage := (JsNum.mul (JsNum.div (.fin p.2) (.fin summary.monthlyExpenses)) (.fin 100)).toFixed1
                    "  ‚Ä¢ " ++ p.1 ++ ": $" ++ ratToLocale p.2 ++ " (" ++ percentage ++ "%)\n")).foldl (· ++ ·) "")
            else "")
    else "")
  if (jsParseFloat summary.savingsRate).lt (.fin 10) then
    response ++ "\nüí° Tip: Try to save at least 10% of your income each month for better financial health."
  else response

/-- `generateInsightsResponse`. -/
def generateInsightsResponse (insights : Insights) (tone _cx : String) : String :=
  let response := if tone == "casual" then "Here are your spending insights! üìä\n\n"
    else "Spending Analysis:\n\n"
  let response := response ++
    (if insights.trends.length > 0 then
      "üìà Trends:\n" ++ ((insights.trends.map (fun t => "  ‚Ä¢ " ++ t ++ "\n")).foldl (· ++ ·) "") ++ "\n"
    else "")
  let response := response ++
    (if insights.anomalies.length > 0 then
      "‚ö†Ô∏è Items to Review:\n" ++ ((insights.anomalies.map (fun a => "  ‚Ä¢ " ++ a ++ "\n")).foldl (· ++ ·) "") ++ "\n"
    else "")
  response ++
    (if insights.recommendations.length > 0 then
      "üí° Recommendations:\n" ++ ((insights.recommendations.map (fun r => "  ‚Ä¢ " ++ r ++ "\n")).foldl (· ++ ·) "")
    else "")

/-- `answerSpecificQuestion`: direct answers from the financial data. -/
def answerSpecificQuestion (userMessage : String) (_user : Option User) (fd : FinancialData)
    (_tone _cx : String) : String :=
  let message := jsToLower userMessage
  if strContains message "how much" && strContains message "spend" then
    "You are currently spending $" ++ ratToLocale fd.monthlyExpenses ++ " per month."
  else if strContains message "how much" && (strContains message "earn" || strContains message "income") then
    "Your monthly income is $" ++ ratToLocale fd.monthlyIncome ++ "."
  else if strContains message "how much" && (strContains message "save" || strContains message "left") then
    let savings := fd.monthlyIncome - fd.monthlyExpenses
    "You are saving $" ++ ratToLocale savings ++ " per month, which is "
      ++ (JsNum.mul (JsNum.div (.fin savings) (.fin fd.monthlyIncome)) (.fin 100)).toFixed1
      ++ "% of your income."
  else if strContains message "what is my" && strContains message "balance" then
    "Your current balance is $" ++ ratToLocale fd.totalBalance ++ "."
  else if strContains message "what is my" && strContains message "savings rate" then
    let rate := savingsRateJs fd
    "Your savings rate is " ++ rate.toFixed1 ++ "%. " ++
      (if rate.lt (.fin 10) then "Consider aiming for at least 10-20% for better financial health."
       else if rate.lt (.fin 20) then "That is good! Consider increasing to 20% for optimal savings."
       else "Excellent! You are saving at an optimal rate.")
  else
    "I understand you are asking about your finances. Could you be more specific? For example:\n"
      ++ "‚Ä¢ \"How much am I spending?\"\n"
      ++ "‚Ä¢ \"What is my savings rate?\"\n"
      ++ "‚Ä¢ \"How much do I earn?\""

/-! ## Canned financial-term explanations (`explain*` methods) -/

/-- `explainSIP`. -/
def explainSIP (tone cx : String) : String :=
  let response := if tone == "casual" then "SIP stands for Systematic Investment Plan!\n\n"
    else "SIP (Systematic Investment Plan):\n\n"
  let response := response
    ++ "SIP is a method of investing in mutual funds where you invest a fixed amount regularly (monthly, quarterly, etc.) instead of a lump sum.\n\n"
    ++ "Key Benefits:\n"
    ++ "‚Ä¢ Rupee Cost Averaging - You buy more units when prices are low and fewer when prices are high\n"
    ++ "‚Ä¢ Disciplined Investing - Regular investments build the habit of saving\n"
    ++ "‚Ä¢ Small Amounts - You can start with as little as $500-1000 per month\n"
    ++ "‚Ä¢ Flexibility - You can increase, decrease, pause, or stop anytime\n"
    ++ "‚Ä¢ Power of Compounding - Your money grows over time through reinvestment\n\n"
  if cx == "detailed" then
    response ++ "How it works:\n"
      ++ "1. Choose a mutual fund scheme\n"
      ++ "2. Decide the amount and frequency (usually monthly)\n"
      ++ "3. Set up auto-debit from your bank account\n"
      ++ "4. The fund house automatically invests the amount on a fixed date\n"
      ++ "5. You accumulate units in the fund over time\n\n"
      ++ "SIP is ideal for long-term goals like retirement, children\x27s education, or buying a house."
  else
    response ++ "SIP is perfect for long-term goals like retirement, education, or buying a house. Start small and invest regularly!"

/-- `explainMutualFund`. -/
def explainMutualFund (tone _cx : String) : String :=
  (if tone == "casual" then "Mutual funds are a great investment option!\n\n" else "Mutual Funds:\n\n")
    ++ "A mutual fund pools money from many investors to buy a diversified portfolio of stocks, bonds, or other securities.\n\n"
    ++ "Benefits: Professional management, diversification, liquidity, and low minimum investment.\n"
    ++ "Types: Equity funds (stocks), Debt funds (bonds), Hybrid funds (mix), and Index funds.\n"

/-- `explainEquity`. -/
def explainEquity (_tone _cx : String) : String :=
  "Equity represents ownership in a company. When you buy stocks, you own a portion of that company.\n\n"
    ++ "Equity investments can offer higher returns but come with higher risk. Suitable for long-term goals.\n"

/-- `explainStocks`. -/
def explainStocks (_tone _cx : String) : String :=
  "Stocks (or shares) represent ownership in a company. Buying stocks makes you a shareholder.\n\n"
    ++ "Stock prices fluctuate based on company performance and market conditions. Research before investing.\n"

/-- `explainStockMarket`. -/
def explainStockMarket (_tone _cx : String) : String :=
  "The stock market is where buyers and sellers trade stocks of publicly listed companies.\n\n"
    ++ "Major indices track market performance. Investing in stocks requires understanding market trends and company fundamentals.\n"

/-- `explainPortfolio`. -/
def explainPortfolio (_tone _cx : String) : String :=
  "A portfolio is your collection of investments (stocks, bonds, mutual funds, etc.).\n\n"
    ++ "A well-diversified portfolio spreads risk across different asset classes and sectors.\n"

/-- `explainDiversification`. -/
def explainDiversification (_tone _cx : String) : String :=
  "Diversification means spreading investments across different assets to reduce risk.\n\n"
    ++ "Don\x27t put all eggs in one basket. Invest in stocks, bonds, real estate, and other assets.\n"

/-- `explainETF`. -/
def explainETF (_tone _cx : String) : String :=
  "ETF (Exchange Traded Fund) is a basket of securities that trades on stock exchanges like a stock.\n\n"
    ++ "ETFs combine benefits of mutual funds (diversification) with stocks (trading flexibility). Lower fees than mutual funds.\n"

/-- `explainIndexFund`. -/
def explainIndexFund (_tone _cx : String) : String :=
  "An index fund tracks a market index (like S&P 500) by holding the same securities in the same proportions.\n\n"
    ++ "Low fees, passive management, and broad market exposure. Great for beginners.\n"

/-- `explainBond`. -/
def explainBond (_tone _cx : String) : String :=
  "A bond is a loan you give to a company or government. They pay you interest and return the principal.\n\n"
    ++ "Bonds are generally safer than stocks but offer lower returns. Good for conservative investors.\n"

/-- `explainFixedDeposit`. -/
def explainFixedDeposit (_tone _cx : String) : String :=
  "Fixed Deposit (FD) is a bank deposit with fixed interest rate and maturity date.\n\n"
    ++ "Safe, guaranteed returns, but lower than market investments. Good for short-term goals.\n"

/-- `explainRD`. -/
def explainRD (_tone _cx : String) : String :=
  "Recurring Deposit (RD) lets you invest a fixed amount monthly for a fixed period.\n\n"
    ++ "Disciplined savings with guaranteed returns. Similar to FD but with monthly contributions.\n"

/-- `explainPPF`. -/
def explainPPF (_tone _cx : String) : String :=
  "PPF (Public Provident Fund) is a long-term savings scheme with tax benefits.\n\n"
    ++ "15-year lock-in, tax deductions under Section 80C, and tax-free interest. Great for retirement planning.\n"

/-- `explainNSC`. -/
def explainNSC (_tone _cx : String) : String :=
  "NSC (National Savings Certificate) is a fixed-income investment scheme.\n\n"
    ++ "5-year maturity, tax benefits under Section 80C, and guaranteed returns backed by government.\n"

/-- `explainCreditScore`. -/
def explainCreditScore (_tone _cx : String) : String :=
  "Credit score (300-850) reflects your creditworthiness based on payment history and debt.\n\n"
    ++ "Higher scores (700+) get better loan rates. Pay bills on time, keep debt low, and check your report regularly.\n"

/-- `explainCreditCard`. -/
def explainCreditCard (_tone _cx : String) : String :=
  "Credit cards let you borrow money up to a limit. Pay full balance monthly to avoid interest.\n\n"
    ++ "Use responsibly: pay on time, avoid minimum payments, and use rewards wisely.\n"

/-- `explainEMI`. -/
def explainEMI (_tone _cx : String) : String :=
  "EMI (Equated Monthly Installment) is the fixed monthly payment for loans.\n\n"
    ++ "Includes principal and interest. Lower EMI = longer tenure = more total interest. Find the right balance.\n"

/-- `explainInterestRate`. -/
def explainInterestRate (_tone _cx : String) : String :=
  "Interest rate is the cost of borrowing money or return on savings.\n\n"
    ++ "APR (Annual Percentage Rate) shows true borrowing cost. Compare rates before taking loans.\n"

/-- `explainCompoundInterest`. -/
def explainCompoundInterest (_tone _cx : String) : String :=
  "Compound interest earns interest on interest, making money grow faster over time.\n\n"
    ++ "The longer you invest, the more compounding benefits you get. Start early for maximum growth!\n"

/-- `explainSimpleInterest`. -/
def explainSimpleInterest (_tone _cx : String) : String :=
  "Simple interest is calculated only on the principal amount.\n\n"
    ++ "Unlike compound interest, it doesn\x27t earn interest on previous interest. Used for short-term loans.\n"

/-- `explainCredit`. -/
def explainCredit (_tone _cx : String) : String :=
  "Credit is the ability to borrow money or access goods/services before payment.\n\n"
    ++ "Use credit wisely: build good credit history, pay on time, and avoid excessive debt.\n"

/-- `explainDebit`. -/
def explainDebit (_tone _cx : String) : String :=
  "Debit means money is taken out of your account immediately.\n\n"
    ++ "Debit cards use your own money, unlike credit cards which borrow money.\n"

/-- `explainInsurance`. -/
def explainInsurance (_tone _cx : String) : String :=
  "Insurance protects you financially from unexpected events in exchange for premiums.\n\n"
    ++ "Types: Life, health, auto, home insurance. Choose coverage based on your needs and risk.\n"

/-- `explainLifeInsurance`. -/
def explainLifeInsurance (_tone _cx : String) : String :=
  "Life insurance provides financial protection to your family if you pass away.\n\n"
    ++ "Term insurance is pure protection, while whole life combines insurance with savings.\n"

/-- `explainHealthInsurance`. -/
def explainHealthInsurance (_tone _cx : String) : String :=
  "Health insurance covers medical expenses. Essential for protection against high healthcare costs.\n\n"
    ++ "Compare plans, check coverage, deductibles, and network hospitals before choosing.\n"

/-- `explainTermInsurance`. -/
def explainTermInsurance (_tone _cx : String) : String :=
  "Term insurance provides pure life coverage for a fixed period at low premiums.\n\n"
    ++ "No savings component, just protection. Best for those who need maximum coverage at minimum cost.\n"

/-- `explainPremium`. -/
def explainPremium (_tone _cx : String) : String :=
  "Premium is the amount you pay regularly (monthly/annually) for insurance coverage.\n\n"
    ++ "Higher premiums often mean better coverage. Compare premiums and benefits before choosing.\n"

/-- `explainTax` delegates to `generateTaxAdvice(null, {} as FinancialData, ...)`. -/
def explainTax (tone cx : String) : String :=
  generateTaxAdvice none tone cx

/-- `explainIncomeTax`. -/
def explainIncomeTax (_tone _cx : String) : String :=
  "Income tax is a tax on your earnings. Rates vary by income level and country.\n\n"
    ++ "Use deductions and exemptions to reduce taxable income legally.\n"

/-- `explainGST`. -/
def explainGST (_tone _cx : String) : String :=
  "GST (Goods and Services Tax) is a consumption tax on goods and services.\n\n"
    ++ "Paid by consumers but collected by businesses. Different rates for different product categories.\n"

/-- `explainDeduction`. -/
def explainDeduction (_tone _cx : String) : String :=
  "Tax deductions reduce your taxable income, lowering your tax bill.\n\n"
    ++ "Common deductions: Section 80C (investments), medical expenses, home loan interest, education expenses.\n"

/-- `explain80C`. -/
def explain80C (_tone _cx : String) : String :=
  "Section 80C allows tax deduction up to $1,500 (or equivalent) per year on eligible investments.\n\n"
    ++ "Eligible: PPF, ELSS, NSC, life insurance premiums, home loan principal, children\x27s tuition fees.\n"

/-- `explainITR`. -/
def explainITR (_tone _cx : String) : String :=
  "ITR (Income Tax Return) is a form declaring your income and taxes paid for the year.\n\n"
    ++ "File before deadline to avoid penalties. Keep documents ready and use e-filing for convenience.\n"

/-- `explainRetirement` delegates to
`generateRetirementAdvice(null, {} as FinancialData, ...)` — the empty cast
makes the numeric fields behave as NaN. -/
def explainRetirement (tone cx : String) : String :=
  generateRetirementAdvice none .nan .nan tone cx

/-- `explain401k`. -/
def explain401k (_tone _cx : String) : String :=
  "401(k) is a US employer-sponsored retirement plan. Contributions are pre-tax.\n\n"
    ++ "Many employers match contributions - take full advantage! Maximum contribution limits apply.\n"

/-- `explainIRA`. -/
def explainIRA (_tone _cx : String) : String :=
  "IRA (Individual Retirement Account) is a personal retirement savings account.\n\n"
    ++ "Traditional IRA: tax-deferred. Roth IRA: post-tax contributions, tax-free withdrawals. Choose based on your situation.\n"

/-- `explainPension`. -/
def explainPension (_tone _cx : String) : String :=
  "Pension is a regular payment after retirement, typically from employer or government.\n\n"
    ++ "Plan early for retirement. Consider pension plans, 401(k), IRA, and other retirement accounts.\n"

/-- `explainEPF`. -/
def explainEPF (_tone _cx : String) : String :=
  "EPF (Employee Provident Fund) is a retirement savings scheme for employees.\n\n"
    ++ "Both employer and employee contribute. Long-term savings with tax benefits and guaranteed returns.\n"

/-- `explainHomeLoan`. -/
def explainHomeLoan (_tone _cx : String) : String :=
  "Home loan helps you buy property by borrowing money from a bank.\n\n"
    ++ "Compare interest rates, processing fees, and tenure. Use EMI calculators to plan payments.\n"

/-- `explainMortgage` delegates to `explainHomeLoan`. -/
def explainMortgage (tone cx : String) : String :=
  explainHomeLoan tone cx

/-- `explainRealEstate`. -/
def explainRealEstate (_tone _cx : String) : String :=
  "Real estate includes land and buildings. Can be residential, commercial, or land.\n\n"
    ++ "Real estate can appreciate but requires maintenance. Consider location, market trends, and your goals.\n"

/-- `explainProperty` delegates to `explainRealEstate`. -/
def explainProperty (tone cx : String) : String :=
  explainRealEstate tone cx

/-- `explainEmergencyFund`. -/
def explainEmergencyFund (_tone _cx : String) : String :=
  "Emergency fund is 3-6 months of expenses saved for unexpected situations.\n\n"
    ++ "Keep it in a separate, easily accessible account. Don\x27t use it for investments or expenses.\n"

/-- `explainSavingsAccount`. -/
def explainSavingsAccount (_tone _cx : String) : String :=
  "Savings account earns interest on your deposits while keeping money accessible.\n\n"
    ++ "Low interest rates but liquid. Good for emergency funds and short-term savings.\n"

/-- `explainCurrentAccount`. -/
def explainCurrentAccount (_tone _cx : String) : String :=
  "Current account is for business transactions with no interest but unlimited transactions.\n\n"
    ++ "Used by businesses for daily operations. Different from savings accounts.\n"

/-- `explainFinancialGoal` delegates to `generateGoalsAdvice(null, ...)`. -/
def explainFinancialGoal (tone cx : String) : String :=
  generateGoalsAdvice none tone cx

/-- `explainDebt` delegates to `generateDebtAdvice(null, {} as FinancialData, ...)`
— the empty cast makes the numeric fields behave as NaN. -/
def explainDebt (tone cx : String) : String :=
  generateDebtAdvice none .nan .nan tone cx

/-- `explainLoan`. -/
def explainLoan (_tone _cx : String) : String :=
  "A loan is borrowed money that must be repaid with interest over time.\n\n"
    ++ "Types: Personal, home, car, education loans. Compare rates, tenure, and terms before borrowing.\n"

/-- `explainPersonalLoan`. -/
def explainPersonalLoan (_tone _cx : String) : String :=
  "Personal loan is unsecured credit for personal needs without collateral.\n\n"
    ++ "Higher interest rates than secured loans. Use only for essential needs and pay off quickly.\n"

/-- `explainEducationLoan`. -/
def explainEducationLoan (_tone _cx : String) : String :=
  "Education loan helps finance education expenses. Often has tax benefits.\n\n"
    ++ "Lower interest rates, longer repayment periods. Research scholarships and grants first.\n"

/-- `explainFinancialPlanning`. -/
def explainFinancialPlanning (_tone _cx : String) : String :=
  "Financial planning is managing money to achieve life goals through budgeting, saving, and investing.\n\n"
    ++ "Steps: Set goals, create budget, build emergency fund, invest for growth, protect with insurance, plan retirement.\n"

/-- `explainAssetAllocation`. -/
def explainAssetAllocation (_tone _cx : String) : String :=
  "Asset allocation is dividing investments among different asset classes (stocks, bonds, cash).\n\n"
    ++ "Balance risk and return based on age, goals, and risk tolerance. Rebalance periodically.\n"

/-- `explainRisk`. -/
def explainRisk (_tone _cx : String) : String :=
  "Investment risk is the possibility of losing money. Higher risk = higher potential returns.\n\n"
    ++ "Assess your risk tolerance: Conservative (bonds, FDs), Moderate (balanced funds), Aggressive (stocks, equity).\n"

/-- `explainInflation`. -/
def explainInflation (_tone _cx : String) : String :=
  "Inflation is the increase in prices over time, reducing purchasing power.\n\n"
    ++ "Your money loses value if returns don\x27t beat inflation. Invest in growth assets to beat inflation.\n"

/-! ## Topic extraction (`extractTopic`) -/

/-- The character class `[a-z\s]` of the topic-capture group. -/
def topicChar (c : Char) : Bool :=
  ('a' ≤ c && c ≤ 'z') || c.isWhitespace

/-- Extend the lazy capture: take the shortest run whose next character is a
question mark, a period, or the end of the string. -/
def captureFrom (acc : List Char) : List Char → Option (List Char)
  | [] => some acc
  | d :: rest =>
    if d == '?' || d == '.' then some acc
    else if topicChar d then captureFrom (acc ++ [d]) rest
    else none

/-- The capture group `([a-z\s]+?)` followed by `(?:\?|$|\.)`: at least one
class character, lazily extended. -/
def matchCapture : List Char → Option (List Char)
  | [] => none
  | c :: rest => if topicChar c then captureFrom [c] rest else none

/-- First success of `f` over a list, in order. -/
def firstSome (f : α → Option β) : List α → Option β
  | [] => none
  | a :: as =>
    match f a with
    | some b => some b
    | none => firstSome f as

/-- Try one topic regex at a fixed start position: the literal lead, then
the optional article alternatives in source order (then the empty
alternative), then the lazy capture. -/
def tryPatternAt (lit : List Char) (articles : List (List Char)) (l : List Char) : Option (List Char) :=
  if charsPrefix lit l then
    firstSome (fun art =>
        let after := l.drop lit.length
        if charsPrefix art after then matchCapture (after.drop art.length) else none)
      (articles ++ [[]])
  else none

/-- Leftmost match of one topic regex: try every start position left to
right. -/
def tryPattern (lit : List Char) (articles : List (List Char)) : List Char → Option (List Char)
  | [] => tryPatternAt lit articles []
  | l@(_ :: rest) =>
    match tryPatternAt lit articles l with
    | some cap => some cap
    | none => tryPattern lit articles rest

/-- `extractTopic`: the four `what is / what are / explain / tell me about`
patterns in source order; the captured topic is trimmed and lowercased. -/
def extractTopic (message : String) : String :=
  let articles : List (List Char) := ["a ".data, "an ".data, "the ".data]
  let pats : List (List Char × List (List Char)) :=
    [("what is ".data, articles),
     ("what are ".data, articles),
     ("explain ".data, []),
     ("tell me about ".data, [])]
  match firstSome (fun p => tryPattern p.1 p.2 message.data) pats with
  | some cap => jsToLower (jsTrim ⟨cap⟩)
  | none => ""

/-! ## The term-to-handler table and `answerFinancialQuestion` -/

/-- The `financialTerms` mapping, as an ordered association list (object
literal keys iterate in declaration order here since none is an integer
index).  Handlers take the tone, the user and the financial data; the
complexity is the enclosing closure's parameter, as in the source. -/
def financialTerms (cx : String) : List (String × (String → Option User → FinancialData → String)) :=
  [("sip", fun t _ _ => explainSIP t cx),
   ("systematic investment plan", fun t _ _ => explainSIP t cx),
   ("mutual fund", fun t _ _ => explainMutualFund t cx),
   ("mutual funds", fun t _ _ => explainMutualFund t cx),
   ("equity", fun t _ _ => explainEquity t cx),
   ("stocks", fun t _ _ => explainStocks t cx),
   ("stock market", fun t _ _ => explainStockMarket t cx),
   ("portfolio", fun t _ _ => explainPortfolio t cx),
   ("diversification", fun t _ _ => explainDiversification t cx),
   ("diversify", fun t _ _ => explainDiversification t cx),
   ("etf", fun t _ _ => explainETF t cx),
   ("exchange traded fund", fun t _ _ => explainETF t cx),
   ("index fund", fun t _ _ => explainIndexFund t cx),
   ("bond", fun t _ _ => explainBond t cx),
   ("bonds", fun t _ _ => explainBond t cx),
   ("fixed deposit", fun t _ _ => explainFixedDeposit t cx),
   ("fd", fun t _ _ => explainFixedDeposit t cx),
   ("recurring deposit", fun t _ _ => explainRD t cx),
   ("rd", fun t _ _ => explainRD t cx),
   ("ppf", fun t _ _ => explainPPF t cx),
   ("public provident fund", fun t _ _ => explainPPF t cx),
   ("nsc", fun t _ _ => explainNSC t cx),
   ("national savings certificate", fun t _ _ => explainNSC t cx),
   ("credit score", fun t _ _ => explainCreditScore t cx),
   ("credit card", fun t _ _ => explainCreditCard t cx),
   ("emi", fun t _ _ => explainEMI t cx),
   ("equated monthly installment", fun t _ _ => explainEMI t cx),
   ("interest rate", fun t _ _ => explainInterestRate t cx),
   ("compound interest", fun t _ _ => explainCompoundInterest t cx),
   ("simple interest", fun t _ _ => explainSimpleInterest t cx),
   ("credit", fun t _ _ => explainCredit t cx),
   ("debit", fun t _ _ => explainDebit t cx),
   ("insurance", fun t _ _ => explainInsurance t cx),
   ("life insurance", fun t _ _ => explainLifeInsurance t cx),
   ("health insurance", fun t _ _ => explainHealthInsurance t cx),
   ("term insurance", fun t _ _ => explainTermInsurance t cx),
   ("premium", fun t _ _ => explainPremium t cx),
   ("tax", fun t _ _ => explainTax t cx),
   ("income tax", fun t _ _ => explainIncomeTax t cx),
   ("gst", fun t _ _ => explainGST t cx),
   ("deduction", fun t _ _ => explainDeduction t cx),
   ("tax deduction", fun t _ _ => explainDeduction t cx),
   ("80c", fun t _ _ => explain80C t cx),
   ("section 80c", fun t _ _ => explain80C t cx),
   ("itr", fun t _ _ => explainITR t cx),
   ("income tax return", fun t _ _ => explainITR t cx),
   ("retirement", fun t _ _ => explainRetirement t cx),
   ("401k", fun t _ _ => explain401k t cx),
   ("ira", fun t _ _ => explainIRA t cx),
   ("pension", fun t _ _ => explainPension t cx),
   ("epf", fun t _ _ => explainEPF t cx),
   ("employee provident fund", fun t _ _ => explainEPF t cx),
   ("home loan", fun t _ _ => explainHomeLoan t cx),
   ("mortgage", fun t _ _ => explainMortgage t cx),
   ("real estate", fun t _ _ => explainRealEstate t cx),
   ("property", fun t _ _ => explainProperty t cx),
   ("emergency fund", fun t _ _ => explainEmergencyFund t cx),
   ("savings account", fun t _ _ => explainSavingsAccount t cx),
   ("current account", fun t _ _ => explainCurrentAccount t cx),
   ("financial goal", fun t _ _ => explainFinancialGoal t cx),
   ("debt", fun t _ _ => explainDebt t cx),
   ("loan", fun t _ _ => explainLoan t cx),
   ("personal loan", fun t _ _ => explainPersonalLoan t cx),
   ("education loan", fun t _ _ => explainEducationLoan t cx),
   ("budget", fun t _ d => generateBudgetResponse (generateBudgetSummary d) t cx),
   ("financial planning", fun t _ _ => explainFinancialPlanning t cx),
   ("asset allocation", fun t _ _ => explainAssetAllocation t cx),
   ("risk", fun t _ _ => explainRisk t cx),
   ("inflation", fun t _ _ => explainInflation t cx)]

/-- The term keys of the table, in declaration order. -/
def termKeys (cx : String) : List String :=
  (financialTerms cx).map Prod.fst

/-- `generateFinancialExplanation`: the keyword-family bucketed generic
explanation of step 4 of the dispatcher. -/
def generateFinancialExplanation (_userMessage message tone _cx : String) : String :=
  let topic := extractTopic message
  if topic == "" then ""
  else
    let financialKeywords : List String :=
      ["finance", "financial", "money", "investment", "saving", "spending",
       "budget", "income", "expense", "wealth", "capital", "asset", "liability",
       "revenue", "profit", "loss", "return", "yield", "dividend", "interest",
       "loan", "credit", "debt", "equity", "stock", "share", "bond", "security",
       "fund", "portfolio", "market", "trading", "broker", "account", "bank",
       "insurance", "tax", "retirement", "pension", "annuity", "estate",
       "mortgage", "refinance", "liquidity", "volatility", "leverage", "margin"]
    let isFinancialQuestion := financialKeywords.any (fun keyword =>
      strContains message keyword || strContains topic keyword)
    if !isFinancialQuestion then ""
    else
      let response := if tone == "casual" then "Let me help you understand " ++ topic ++ "!\n\n"
        else "Regarding " ++ topic ++ ":\n\n"
      let response := response ++ "I want to provide you with accurate information. " ++ topic
        ++ " is a financial term, and the specifics can vary based on context and location.\n\n"
      if strContains topic "investment" || strContains topic "invest" || strContains topic "fund"
          || strContains topic "stock" || strContains topic "equity" then
        response ++ "This appears to be related to investing. Here are some general principles:\n"
          ++ "‚Ä¢ Research before investing\n"
          ++ "‚Ä¢ Diversify your portfolio\n"
          ++ "‚Ä¢ Understand your risk tolerance\n"
          ++ "‚Ä¢ Consider your time horizon\n"
          ++ "‚Ä¢ Start with low-cost index funds if you\x27re a beginner\n\n"
          ++ "Would you like me to explain a specific investment term like SIP, mutual funds, or stocks?"
      else if strContains topic "loan" || strContains topic "debt" || strContains topic "credit"
          || strContains topic "borrow" then
        response ++ "This seems related to borrowing or credit. Key points:\n"
          ++ "‚Ä¢ Compare interest rates before borrowing\n"
          ++ "‚Ä¢ Understand all terms and fees\n"
          ++ "‚Ä¢ Only borrow what you can afford to repay\n"
          ++ "‚Ä¢ Maintain a good credit score\n"
          ++ "‚Ä¢ Pay off high-interest debt first\n\n"
          ++ "Would you like to know about specific loan types like personal loans, home loans, or how to manage debt?"
      else if strContains topic "tax" || strContains topic "deduction" || strContains topic "income tax" then
        response ++ "This appears to be a tax-related question. Important points:\n"
          ++ "‚Ä¢ Tax laws vary by country and change frequently\n"
          ++ "‚Ä¢ Use tax deductions and exemptions legally\n"
          ++ "‚Ä¢ Keep records of all financial transactions\n"
          ++ "‚Ä¢ Consider consulting a tax professional for specific advice\n\n"
          ++ "Would you like to know about tax deductions, Section 80C, or filing tax returns?"
      else if strContains topic "insurance" || strContains topic "premium" || strContains topic "coverage" then
        response ++ "This seems related to insurance. Key considerations:\n"
          ++ "‚Ä¢ Choose coverage based on your needs and risk\n"
          ++ "‚Ä¢ Compare premiums and benefits\n"
          ++ "‚Ä¢ Understand deductibles and coverage limits\n"
          ++ "‚Ä¢ Review and update policies regularly\n\n"
          ++ "Would you like to know about life insurance, health insurance, or term insurance?"
      else if strContains topic "saving" || strContains topic "emergency" || strContains topic "fund" then
        response ++ "This appears related to savings. Important points:\n"
          ++ "‚Ä¢ Build an emergency fund (3-6 months of expenses)\n"
          ++ "‚Ä¢ Automate your savings\n"
          ++ "‚Ä¢ Aim to save at least 10-20% of your income\n"
          ++ "‚Ä¢ Save for specific goals separately\n\n"
          ++ "Would you like to know about emergency funds, savings strategies, or setting financial goals?"
      else if strContains topic "retirement" || strContains topic "pension" || strContains topic "401k"
          || strContains topic "ira" then
        response ++ "This seems related to retirement planning. Key steps:\n"
          ++ "‚Ä¢ Start saving early for retirement\n"
          ++ "‚Ä¢ Contribute to employer-sponsored plans (401k, 403b)\n"
          ++ "‚Ä¢ Consider IRAs (Traditional or Roth)\n"
          ++ "‚Ä¢ Aim to save 10-15% of income for retirement\n"
          ++ "‚Ä¢ Diversify your retirement investments\n\n"
          ++ "Would you like to know about 401(k), IRA, or general retirement planning?"
      else
        response ++ "Here are some general financial principles that might help:\n"
          ++ "‚Ä¢ Create and stick to a budget\n"
          ++ "‚Ä¢ Build an emergency fund\n"
          ++ "‚Ä¢ Pay off high-interest debt\n"
          ++ "‚Ä¢ Invest for long-term goals\n"
          ++ "‚Ä¢ Protect yourself with insurance\n"
          ++ "‚Ä¢ Plan for retirement early\n\n"
          ++ "Could you be more specific about what aspect of " ++ topic ++ " you\x27d like to understand?"

/-- `answerFinancialQuestion`: the term table scanned in declaration order
(first match wins), then the question-pattern probes, the strategy probes,
and the generic explanation; `''` signals fall-through to the general
response. -/
def answerFinancialQuestion (userMessage message : String) (user : Option User) (fd : FinancialData)
    (tone cx _fullContext : String) : String :=
  match (financialTerms cx).find? (fun e => strContains message e.1) with
  | some e => e.2 tone user fd
  | none =>
    let viaTopic : Option String :=
      if strContains message "what is" || strContains message "what are"
          || strContains message "explain" || strContains message "tell me about" then
        let topic := extractTopic message
        if topic != "" then
          match (financialTerms cx).find? (fun e => strContains topic e.1 || strContains e.1 topic) with
          | some e => some (e.2 tone user fd)
          | none => none
        else none
      else none
    match viaTopic with
    | some r => r
    | none =>
      if strContains message "where should i invest" || strContains message "where to invest"
          || strContains message "how to invest" then
        generateInvestmentAdvice user fd tone cx
      else if strContains message "how to save" || strContains message "how can i save"
          || strContains message "save more" then
        generateSavingsAdvice user fd tone cx
      else if strContains message "show my budget" || strContains message "my budget"
          || strContains message "budget summary" then
        generateBudgetResponse (generateBudgetSummary fd) tone cx
      else if strContains message "spending" || strContains message "where does my money go"
          || strContains message "spending insights" then
        generateInsightsResponse (generateSpendingInsights fd) tone cx
      else if strContains message "what is" || strContains message "what are"
          || strContains message "explain" || strContains message "tell me about" then
        generateFinancialExplanation userMessage message tone cx
      else ""

/-! ## `generateGeneralResponse` and `AIService.generateResponse` -/

/-- `generateGeneralResponse`: greeting / thanks / help / continuation /
generic-clarification canned responses.  `r` models the
`Math.floor(Math.random() * greetings.length)` draw. -/
def generateGeneralResponse (userMessage : String) (user : Option User) (_fd : FinancialData)
    (tone _cx : String) (conversationHistory : List ChatMessage) (r : Fin 3) : String :=
  let greetings : List String :=
    if tone == "casual" then ["Hey!", "Hi there!", "What is up?"]
    else ["Hello!", "Greetings!", "Good day!"]
  let greeting := greetings.getD r.val ""
  let isContinuation := conversationHistory.length > 0
  let recentTopics := joinSpace ((jsSliceLast 3 conversationHistory).map (fun m => jsToLower m.content))
  let message := jsToLower userMessage
  if strContains message "hello" || strContains message "hi" || strContains message "hey"
      || message == "hi" || message == "hello" then
    let userName :=
      match user with
      | some u => if u.fullName != "" then ", " ++ firstName u.fullName else ""
      | none => ""
    greeting ++ userName ++ "! I am FINOVA, your personal financial assistant.\n\n"
      ++ "I can help you with:\n"
      ++ "‚Ä¢ Budget planning and summaries\n"
      ++ "‚Ä¢ Savings strategies and goals\n"
      ++ "‚Ä¢ Investment advice\n"
      ++ "‚Ä¢ Tax planning\n"
      ++ "‚Ä¢ Spending insights and analysis\n"
      ++ "‚Ä¢ Debt management\n"
      ++ "‚Ä¢ Retirement planning\n\n"
      ++ "What would you like to know about your finances today?"
  else if strContains message "thank" || strContains message "thanks" then
    "You are welcome! I am here anytime you need financial advice. Is there anything else I can help you with?"
  else if strContains message "help" || message == "help" then
    "I can help you with various financial topics!\n\n"
      ++ "Try asking me:\n"
      ++ "‚Ä¢ \"Show me my budget summary\"\n"
      ++ "‚Ä¢ \"How much am I spending?\"\n"
      ++ "‚Ä¢ \"How can I save more money?\"\n"
      ++ "‚Ä¢ \"What should I invest in?\"\n"
      ++ "‚Ä¢ \"Give me spending insights\"\n"
      ++ "‚Ä¢ \"How is my financial health?\"\n\n"
      ++ "Or ask me any specific financial question!"
  else if isContinuation && recentTopics != "" then
    greeting ++ " "
      ++ (if strContains recentTopics "budget" || strContains recentTopics "summary" then
            "Continuing on your budget discussion. "
          else if strContains recentTopics "save" || strContains recentTopics "saving" then
            "Regarding savings, "
          else if strContains recentTopics "invest" || strContains recentTopics "investment" then
            "About investments, "
          else if strContains recentTopics "spending" || strContains recentTopics "expense" then
            "On spending, "
          else "")
      ++ "I can help you with various financial topics. Could you be more specific? For example:\n"
      ++ "‚Ä¢ \"Show my budget\"\n"
      ++ "‚Ä¢ \"How can I save more?\"\n"
      ++ "‚Ä¢ \"Investment advice\"\n"
      ++ "‚Ä¢ \"Spending analysis\""
  else
    greeting ++ " I am here to help with your financial questions!\n\n"
      ++ "I want to make sure I give you the best answer. Could you be more specific? For example:\n\n"
      ++ "‚Ä¢ Ask about your budget: \"Show my budget summary\" or \"How much am I spending?\"\n"
      ++ "‚Ä¢ Get savings advice: \"How can I save more money?\" or \"What is a good savings rate?\"\n"
      ++ "‚Ä¢ Investment help: \"Where should I invest?\" or \"Investment advice for beginners\"\n"
      ++ "‚Ä¢ Spending analysis: \"Show my spending insights\" or \"Where does my money go?\"\n"
      ++ "‚Ä¢ Financial health: \"How am I doing financially?\" or \"Am I on track?\"\n\n"
      ++ "What specific financial topic can I help you with?"

/-- `AIService.generateResponse`, with the store context (`user`,
`financialData`) and the random greeting index as explicit parameters (the
source reads them from the storage service and `Math.random`); the
simulated processing delay has no observable effect and is dropped. -/
def generateResponseWith (user : Option User) (fd : FinancialData) (r : Fin 3)
    (userMessage : String) (conversationHistory : List ChatMessage) : AIResponse :=
  let tc := getDemographicTone user
  let tone := tc.1
  let cx := tc.2
  let message := jsTrim (jsToLower userMessage)
  let recentContext := jsToLower (joinSpace ((jsSliceLast 5 conversationHistory).map (·.content)))
  let fullContext := recentContext ++ " " ++ message
  let isQuestion := strContains message "?"
    || strContains message "how"
    || strContains message "what"
    || strContains message "why"
    || strContains message "when"
    || strContains message "where"
    || strContains message "which"
    || strContains message "can i"
    || strContains message "should i"
    || strContains message "do i"
    || strContains message "explain"
    || strContains message "tell me about"
  let dataAnswer := answerSpecificQuestion userMessage user fd tone cx
  if isQuestion
      && (strContains message "how much" || strContains message "what is my" || strContains message "my")
      && (dataAnswer != "" && !strContains dataAnswer "Could you be more specific") then
    { content := dataAnswer, suggestions := some [], budgetSummary := none, insights := none }
  else
    let response := answerFinancialQuestion userMessage message user fd tone cx fullContext
    if response != "" && !strContains response "Could you be more specific"
        && !strContains response "I want to make sure" then
      { content := response
        suggestions := some []
        budgetSummary :=
          if strContains message "budget" || strContains message "summary" || strContains message "overview" then
            some (generateBudgetSummary fd)
          else none
        insights :=
          if strContains message "spending" || strContains message "expense" || strContains message "insight" then
            some (generateSpendingInsights fd)
          else none }
    else
      { content := generateGeneralResponse userMessage user fd tone cx conversationHistory r
        suggestions := some []
        budgetSummary := none
        insights := none }

/-! ## JSON values

Local storage and the remote HTTP body are modelled as structured `Json`
values; `JSON.stringify`/`JSON.parse` of well-formed data round-trip
through this representation. -/

/-- A JSON value. -/
inductive Json where
  | null
  | bool (b : Bool)
  | num (q : ℚ)
  | str (s : String)
  | arr (items : List Json)
  | obj (fields : List (String × Json))

/-- Field access on an object's field list (our encoders never produce
duplicate keys). -/
def lookupField (fields : List (String × Json)) (k : String) : Option Json :=
  match fields with
  | [] => none
  | (k', v) :: rest => if k' == k then some v else lookupField rest k

/-- JS truthiness of a JSON value. -/
def jsTruthy : Json → Bool
  | .null => false
  | .bool b => b
  | .num q => !(q == 0)
  | .str s => !(s == "")
  | .arr _ => true
  | .obj _ => true

/-! ## Remote Assistant Adapter (`AIServiceHuggingFace`) -/

/-- The outcome of one `fetch`: the promise rejects, or a response arrives
with a status and a body (`none` when `response.json()` would throw). -/
inductive FetchResult where
  | netError
  | resp (status : ℕ) (body : Option Json)

/-- `Response.ok`: status in the 2xx range. -/
def statusOk (st : ℕ) : Bool :=
  200 ≤ st && st ≤ 299

/-- The response the adapter ends up parsing: the primary call, except that
a non-ok 503 primary response triggers exactly one retry against the
fallback model. -/
def effectiveResult (primary fallbackM : FetchResult) : FetchResult :=
  match primary with
  | .netError => .netError
  | .resp st body => if !statusOk st && st == 503 then fallbackM else .resp st body

/-- `data.error` probing: accessing a property of `null` throws (caught by
the adapter's `catch`); on an object the field's truthiness decides; on
arrays and primitives the access yields `undefined` (falsy). -/
def errorCheck : Json → Except Unit Bool
  | .null => .error ()
  | .obj fields =>
    match lookupField fields "error" with
    | some v => .ok (jsTruthy v)
    | none => .ok false
  | _ => .ok false

/-- `if (o.k) x = o.k.trim()` probing of one field: `none` = skip (absent
or falsy), `some (.ok s)` = string found and trimmed, `some (.error ())` =
a truthy non-string, whose `.trim()` throws. -/
def probeField (fields : List (String × Json)) (k : String) : Option (Except Unit String) :=
  match lookupField fields k with
  | some (Json.str s) => if s == "" then none else some (.ok (jsTrim s))
  | some v => if jsTruthy v then some (.error ()) else none
  | none => none

/-- The shape-probing that fills `aiResponse` from the parsed body: array
of objects with `generated_text`/`summary_text`, array of strings, bare
object (including its `[0]` member), bare string; anything else leaves the
empty string. -/
def extractRaw : Json → Except Unit String
  | .arr items =>
    (match items.head? with
     | some (Json.obj fields) =>
       (match probeField fields "generated_text" with
        | some r => r
        | none =>
          match probeField fields "summary_text" with
          | some r => r
          | none => .ok "")
     | some (Json.str s) => .ok (jsTrim s)
     | _ => .ok "")
  | .obj fields =>
    (match probeField fields "generated_text" with
     | some r => r
     | none =>
       match probeField fields "summary_text" with
       | some r => r
       | none =>
         match probeField fields "text" with
         | some r => r
         | none =>
           match lookupField fields "0" with
           | some (Json.obj inner) =>
             (match probeField inner "generated_text" with
              | some r => r
              | none => .ok "")
           | _ => .ok "")
  | .str s => .ok (jsTrim s)
  | _ => .ok ""

/-- The response clean-up: strip the special tokens, trim, cut at the
`Assistant Response:` / `FINOVA:` markers, and keep the part before a
trailing `User:` turn. -/
def cleanText (s : String) : String :=
  let r := jsTrim (jsReplaceAll (jsReplaceAll (jsReplaceAll (jsReplaceAll s
      "<|system|>" "") "<|user|>" "") "<|assistant|>" "") "<|end|>" "")
  let r :=
    if strContains r "Assistant Response:" then
      let seg := jsTrim ((jsSplit r "Assistant Response:").getD 1 "")
      if seg != "" then seg else r
    else r
  let r :=
    if strContains r "FINOVA:" then
      let seg := jsTrim ((jsSplit r "FINOVA:").getD 1 "")
      if seg != "" then seg else r
    else r
  if strContains r "User:" then jsTrim ((jsSplit r "User:").getD 0 "")
  else r

/-- `shouldGenerateBudgetSummary`. -/
def shouldGenerateBudgetSummary (userMessage aiResponse : String) : Bool :=
  ["budget", "summary", "income", "expense", "spending", "balance"].any (fun keyword =>
    strContains (jsToLower userMessage) keyword || strContains (jsToLower aiResponse) keyword)

/-- `shouldGenerateInsights`. -/
def shouldGenerateInsights (userMessage aiResponse : String) : Bool :=
  ["insight", "spending", "expense", "analysis", "recommendation"].any (fun keyword =>
    strContains (jsToLower userMessage) keyword || strContains (jsToLower aiResponse) keyword)

/-- The adapter's own `generateBudgetSummary` (duplicated in the source,
with an identical body). -/
def hfGenerateBudgetSummary (fd : FinancialData) : BudgetSummaryObj :=
  { monthlyIncome := fd.monthlyIncome
    monthlyExpenses := fd.monthlyExpenses
    monthlySavings := fd.monthlyIncome - fd.monthlyExpenses
    savingsRate := (savingsRateJs fd).toFixed1
    categoryBreakdown := categoryBreakdown fd.expenseBreakdown
    totalBalance := fd.totalBalance }

/-- The adapter's own `generateSpendingInsights` (duplicated in the source;
it has no largest-category section and a slightly different trend string). -/
def hfGenerateSpendingInsights (fd : FinancialData) : Insights :=
  let savingsRate := savingsRateJs fd
  let n := fd.expenseHistory.length
  let (t1, r1) :=
    if n > 1 then
      let recentExpenses := ((fd.expenseHistory.drop (n - 3)).map (·.amount)).sum / 3
      let olderExpenses := (((fd.expenseHistory.drop (n - 6)).take ((n - 3) - (n - 6))).map (·.amount)).sum / 3
      if olderExpenses * (11 / 10) < recentExpenses then
        (["Your spending has increased by over 10% in recent months."],
         ["Review your recent expenses to identify areas where you can cut back."])
      else if recentExpenses < olderExpenses * (9 / 10) then
        (["Great job! Your spending has decreased recently."], [])
      else ([], [])
    else ([], [])
  let (t2, r2) :=
    if savingsRate.lt (.fin 10) then
      ([], ["Consider increasing your savings rate to at least 10% of your income."])
    else if savingsRate.ge (.fin 20) then
      (["Excellent savings rate! You are saving 20% or more of your income."], [])
    else ([], [])
  let (a3, r3) :=
    if fd.totalBalance < fd.monthlyExpenses * 3 then
      (["Your emergency fund is below 3 months of expenses. Consider building it up."],
       ["Aim to have 3-6 months of expenses saved as an emergency fund."])
    else ([], [])
  { trends := t1 ++ t2
    anomalies := a3
    recommendations := r1 ++ r2 ++ r3 }

/-- `buildPrompt`: the instruction-format prompt with user profile,
financial snapshot and the last five conversation turns. -/
def buildPrompt (userMessage : String) (conversationHistory : List ChatMessage)
    (user : Option User) (fd : FinancialData) (tone cx : String) : String :=
  let prompt := "<|system|>\n"
    ++ "You are FINOVA, an expert personal finance assistant. Provide personalized, accurate financial advice.\n\n"
  let prompt := prompt ++
    (match user with
     | none => ""
     | some u =>
       "User Profile:\n" ++ "- Name: " ++ u.fullName ++ "\n"
         ++ (match u.demographic with
             | none => ""
             | some d =>
               "- Demographic: " ++ d.type
                 ++ (match d.age with
                     | some a => ", Age " ++ ratToLocale a
                     | none => "")
                 ++ (match d.occupation with
                     | some o => ", " ++ o
                     | none => "")
                 ++ "\n")
         ++ (match u.financialGoals with
             | some goals =>
               if goals.length > 0 then "- Goals: " ++ joinCommaSpace goals ++ "\n" else ""
             | none => ""))
  let savingsRate := savingsRateJs fd
  let prompt := prompt ++ "\nFinancial Situation:\n"
    ++ "- Monthly Income: $" ++ ratToLocale fd.monthlyIncome ++ "\n"
    ++ "- Monthly Expenses: $" ++ ratToLocale fd.monthlyExpenses ++ "\n"
    ++ "- Total Balance: $" ++ ratToLocale fd.totalBalance ++ "\n"
    ++ "- Savings Rate: " ++ savingsRate.toFixed1 ++ "%\n"
  let prompt := prompt ++
    (if conversationHistory.length > 0 then
      "\nRecent Conversation:\n" ++
        (((jsSliceLast 5 conversationHistory).map (fun msg =>
            (if msg.role == "user" then "User" else "FINOVA") ++ ": " ++ msg.content ++ "\n")).foldl (· ++ ·) "")
    else "")
  prompt ++ "\nCommunication Style: " ++ tone ++ ", " ++ cx ++ " level\n"
    ++ "<|user|>\n" ++ userMessage ++ "\n<|assistant|>\n"

/-- `AIServiceHuggingFace.generateResponse`.  The two network calls are
oracle parameters (`primary`, `fallbackM`); every failure branch returns
the rule-based `aiService.generateResponse` output (its `fallbackResponse`
delegates there), so the function is total — no exception escapes. -/
def hfGenerateResponse (user : Option User) (fd : FinancialData) (r : Fin 3)
    (primary fallbackM : FetchResult)
    (userMessage : String) (conversationHistory : List ChatMessage) : AIResponse :=
  let tc := getDemographicTone user
  let _prompt := buildPrompt userMessage conversationHistory user fd tc.1 tc.2
  let fb := generateResponseWith user fd r userMessage conversationHistory
  match effectiveResult primary fallbackM with
  | .netError => fb
  | .resp st body =>
    if !statusOk st then fb
    else
      match body with
      | none => fb
      | some data =>
        match errorCheck data with
        | .error _ => fb
        | .ok true => fb
        | .ok false =>
          match extractRaw data with
          | .error _ => fb
          | .ok raw =>
            let aiResponse := if raw == "" then raw else cleanText raw
            if aiResponse == "" || aiResponse.length < 10 then fb
            else
              { content := aiResponse
                suggestions := none
                budgetSummary :=
                  if shouldGenerateBudgetSummary userMessage aiResponse then
                    some (hfGenerateBudgetSummary fd)
                  else none
                insights :=
                  if shouldGenerateInsights userMessage aiResponse then
                    some (hfGenerateSpendingInsights fd)
                  else none }

/-- The failure conditions of the remote call, as the spec enumerates them:
the (post-retry) fetch throws, the response is not ok, the body is not
JSON, the body carries a truthy `error` field (or is `null`, so the probe
throws), the shape probing throws, or the cleaned text is empty or shorter
than 10 characters. -/
def RemoteCallFails (primary fallbackM : FetchResult) : Prop :=
  effectiveResult primary fallbackM = .netError ∨
  (∃ st body, effectiveResult primary fallbackM = .resp st body ∧
    (statusOk st = false ∨
     body = none ∨
     ∃ data, body = some data ∧
       (errorCheck data = .error () ∨ errorCheck data = .ok true ∨
        (errorCheck data = .ok false ∧
         (extractRaw data = .error () ∨
          ∃ raw, extractRaw data = .ok raw ∧
            ((if raw == "" then raw else cleanText raw) = "" ∨
             (if raw == "" then raw else cleanText raw).length < 10))))))

/-! ## Entity serialization (`JSON.stringify` / `JSON.parse`) -/

/-- Expect a JSON string. -/
def Json.asStr : Json → Option String
  | .str s => some s
  | _ => none

/-- Expect a JSON number. -/
def Json.asNum : Json → Option ℚ
  | .num q => some q
  | _ => none

/-- Decode an optional field: absence decodes to `none` (JS `undefined`
properties are dropped by `JSON.stringify`). -/
def optField (fields : List (String × Json)) (k : String) (f : Json → Option α) : Option (Option α) :=
  match lookupField fields k with
  | none => some none
  | some v => (f v).map some

/-- Encode one `expenseBreakdown` entry. -/
def BreakdownEntry.toJson (e : BreakdownEntry) : Json :=
  .obj [("category", .str e.category), ("amount", .num e.amount), ("date", .str e.date)]

/-- Decode one `expenseBreakdown` entry. -/
def BreakdownEntry.fromJson : Json → Option BreakdownEntry
  | .obj fields => do
    let category ← (lookupField fields "category").bind Json.asStr
    let amount ← (lookupField fields "amount").bind Json.asNum
    let date ← (lookupField fields "date").bind Json.asStr
    pure ⟨category, amount, date⟩
  | _ => none

/-- Encode one `incomeHistory` entry. -/
def IncomeEntry.toJson (e : IncomeEntry) : Json :=
  .obj [("date", .str e.date), ("amount", .num e.amount)]

/-- Decode one `incomeHistory` entry. -/
def IncomeEntry.fromJson : Json → Option IncomeEntry
  | .obj fields => do
    let date ← (lookupField fields "date").bind Json.asStr
    let amount ← (lookupField fields "amount").bind Json.asNum
    pure ⟨date, amount⟩
  | _ => none

/-- Encode one `expenseHistory` entry. -/
def HistEntry.toJson (e : HistEntry) : Json :=
  .obj [("date", .str e.date), ("amount", .num e.amount), ("category", .str e.category)]

/-- Decode one `expenseHistory` entry. -/
def HistEntry.fromJson : Json → Option HistEntry
  | .obj fields => do
    let date ← (lookupField fields "date").bind Json.asStr
    let amount ← (lookupField fields "amount").bind Json.asNum
    let category ← (lookupField fields "category").bind Json.asStr
    pure ⟨date, amount, category⟩
  | _ => none

/-- Encode a `FinancialData` record. -/
def FinancialData.toJson (d : FinancialData) : Json :=
  .obj [("totalBalance", .num d.totalBalance),
        ("monthlyIncome", .num d.monthlyIncome),
        ("monthlyExpenses", .num d.monthlyExpenses),
        ("expenseBreakdown", .arr (d.expenseBreakdown.map BreakdownEntry.toJson)),
        ("incomeHistory", .arr (d.incomeHistory.map IncomeEntry.toJson)),
        ("expenseHistory", .arr (d.expenseHistory.map HistEntry.toJson))]

/-- Decode a `FinancialData` record; a failure models the
corrupted-storage `catch` branch. -/
def FinancialData.fromJson : Json → Option FinancialData
  | .obj fields => do
    let totalBalance ← (lookupField fields "totalBalance").bind Json.asNum
    let monthlyIncome ← (lookupField fields "monthlyIncome").bind Json.asNum
    let monthlyExpenses ← (lookupField fields "monthlyExpenses").bind Json.asNum
    let expenseBreakdown ←
      match lookupField fields "expenseBreakdown" with
      | some (.arr items) => items.mapM BreakdownEntry.fromJson
      | _ => none
    let incomeHistory ←
      match lookupField fields "incomeHistory" with
      | some (.arr items) => items.mapM IncomeEntry.fromJson
      | _ => none
    let expenseHistory ←
      match lookupField fields "expenseHistory" with
      | some (.arr items) => items.mapM HistEntry.fromJson
      | _ => none
    pure ⟨totalBalance, monthlyIncome, monthlyExpenses, expenseBreakdown, incomeHistory, expenseHistory⟩
  | _ => none

/-- Encode a `demographic` record, omitting absent optional fields. -/
def Demographic.toJson (d : Demographic) : Json :=
  .obj ([("type", .str d.type)]
    ++ (match d.age with | some a => [("age", Json.num a)] | none => [])
    ++ (match d.location with | some l => [("location", Json.str l)] | none => [])
    ++ (match d.occupation with | some o => [("occupation", Json.str o)] | none => []))

/-- Decode a `demographic` record. -/
def Demographic.fromJson : Json → Option Demographic
  | .obj fields => do
    let type ← (lookupField fields "type").bind Json.asStr
    let age ← optField fields "age" Json.asNum
    let location ← optField fields "location" Json.asStr
    let occupation ← optField fields "occupation" Json.asStr
    pure ⟨type, age, location, occupation⟩
  | _ => none

/-- Encode a `User` record, omitting absent optional fields. -/
def User.toJson (u : User) : Json :=
  .obj ([("id", .str u.id), ("email", .str u.email), ("fullName", .str u.fullName)]
    ++ (match u.password with | some p => [("password", Json.str p)] | none => [])
    ++ (match u.demographic with | some d => [("demographic", d.toJson)] | none => [])
    ++ (match u.financialGoals with
        | some goals => [("financialGoals", Json.arr (goals.map Json.str))]
        | none => [])
    ++ [("createdAt", .str u.createdAt)])

/-- Decode a `User` record. -/
def User.fromJson : Json → Option User
  | .obj fields => do
    let id ← (lookupField fields "id").bind Json.asStr
    let email ← (lookupField fields "email").bind Json.asStr
    let fullName ← (lookupField fields "fullName").bind Json.asStr
    let password ← optField fields "password" Json.asStr
    let demographic ← optField fields "demographic" Demographic.fromJson
    let financialGoals ← optField fields "financialGoals" (fun j =>
      match j with
      | .arr items => items.mapM Json.asStr
      | _ => none)
    let createdAt ← (lookupField fields "createdAt").bind Json.asStr
    pure ⟨id, email, fullName, password, demographic, financialGoals, createdAt⟩
  | _ => none

/-- Decode the global users list. -/
def usersFromJson : Json → Option (List User)
  | .arr items => items.mapM User.fromJson
  | _ => none

/-- Encode a `SavingsGoal` (`deadline: string | null` is stored as an
explicit JSON null). -/
def SavingsGoal.toJson (g : SavingsGoal) : Json :=
  .obj [("id", .str g.id), ("name", .str g.name),
        ("target_amount", .num g.target_amount), ("current_amount", .num g.current_amount),
        ("deadline", match g.deadline with | some d => Json.str d | none => Json.null),
        ("createdAt", .str g.createdAt)]

/-- Decode a `SavingsGoal`. -/
def SavingsGoal.fromJson : Json → Option SavingsGoal
  | .obj fields => do
    let id ← (lookupField fields "id").bind Json.asStr
    let name ← (lookupField fields "name").bind Json.asStr
    let target ← (lookupField fields "target_amount").bind Json.asNum
    let current ← (lookupField fields "current_amount").bind Json.asNum
    let deadline ←
      match lookupField fields "deadline" with
      | some Json.null => some none
      | some (Json.str d) => some (some d)
      | none => some none
      | _ => none
    let createdAt ← (lookupField fields "createdAt").bind Json.asStr
    pure ⟨id, name, target, current, deadline, createdAt⟩
  | _ => none

/-- Encode a stored chat message, omitting an absent `userId`. -/
def StoredChat.toJson (m : StoredChat) : Json :=
  .obj ([("id", .str m.id), ("role", .str m.role), ("content", .str m.content),
         ("created_at", .str m.created_at)]
    ++ (match m.userId with | some uid => [("userId", Json.str uid)] | none => []))

/-- Decode a stored chat message. -/
def StoredChat.fromJson : Json → Option StoredChat
  | .obj fields => do
    let id ← (lookupField fields "id").bind Json.asStr
    let role ← (lookupField fields "role").bind Json.asStr
    let content ← (lookupField fields "content").bind Json.asStr
    let created_at ← (lookupField fields "created_at").bind Json.asStr
    let userId ← optField fields "userId" Json.asStr
    pure ⟨id, role, content, created_at, userId⟩
  | _ => none

/-- Decode the stored chat list. -/
def chatsFromJson : Json → Option (List StoredChat)
  | .arr items => items.mapM StoredChat.fromJson
  | _ => none

/-- Decode the stored goals list. -/
def goalsFromJson : Json → Option (List SavingsGoal)
  | .arr items => items.mapM SavingsGoal.fromJson
  | _ => none

/-! ## Persistent Store (`StorageService`) -/

/-- The browser local storage: a map from key strings to stored values. -/
def Store := String → Option Json

/-- The storage with no entries. -/
def emptyStore : Store := fun _ => none

/-- `localStorage.setItem`. -/
def setItem (k : String) (v : Json) (s : Store) : Store :=
  fun k' => if k' = k then some v else s k'

/-- `localStorage.removeItem`. -/
def removeItem (k : String) (s : Store) : Store :=
  fun k' => if k' = k then none else s k'

/-- `USERS_KEY`. -/
def usersKey : String := "finova_users"

/-- `SESSION_KEY`. -/
def sessionKey : String := "finova_session_user"

/-- `FINANCIAL_DATA_KEY`. -/
def finDataKey : String := "finova_financial_data"

/-- `SAVINGS_GOALS_KEY`. -/
def goalsKey : String := "finova_savings_goals"

/-- `CHAT_MESSAGES_KEY`. -/
def chatKey : String := "finova_chat_messages"

/-- `getActiveUserId`: the raw string stored under the session key. -/
def getActiveUserId (s : Store) : Option String :=
  match s sessionKey with
  | some (.str uid) => some uid
  | _ => none

/-- `setActiveUser` (the change notification is a no-op here). -/
def setActiveUser (userId : Option String) (s : Store) : Store :=
  match userId with
  | some uid => setItem sessionKey (.str uid) s
  | none => removeItem sessionKey s

/-- `getUserScopedKey`. -/
def getUserScopedKey (baseKey : String) (s : Store) : String :=
  match getActiveUserId s with
  | some uid => baseKey ++ "_" ++ uid
  | none => baseKey

/-- `getAllUsers` (parse failure recovers with the empty list). -/
def getAllUsers (s : Store) : List User :=
  match s usersKey with
  | none => []
  | some j => (usersFromJson j).getD []

/-- `saveAllUsers`. -/
def saveAllUsers (users : List User) (s : Store) : Store :=
  setItem usersKey (.arr (users.map User.toJson)) s

/-- `getCurrentUser`. -/
def getCurrentUser (s : Store) : Option User :=
  match getActiveUserId s with
  | none => none
  | some uid => (getAllUsers s).find? (fun u => u.id == uid)

/-- `getUserByEmail`: the first stored record whose email matches. -/
def getUserByEmail (s : Store) (email : String) : Option User :=
  (getAllUsers s).find? (fun u => u.email == email)

/-- `addUser`: append unconditionally and save. -/
def addUser (user : User) (s : Store) : Store :=
  saveAllUsers (getAllUsers s ++ [user]) s

/-- The default `FinancialData` returned when nothing is stored. -/
def defaultFinancialData : FinancialData :=
  { totalBalance := 10000
    monthlyIncome := 2000
    monthlyExpenses := 500
    expenseBreakdown := []
    incomeHistory := []
    expenseHistory := [] }

/-- `getFinancialData` (decode failure models the corrupted-storage
`catch`, recovering with the default). -/
def getFinancialData (s : Store) : FinancialData :=
  match s (getUserScopedKey finDataKey s) with
  | some j => (FinancialData.fromJson j).getD defaultFinancialData
  | none => defaultFinancialData

/-- `saveFinancialData`. -/
def saveFinancialData (data : FinancialData) (s : Store) : Store :=
  setItem (getUserScopedKey finDataKey s) data.toJson s

/-- `getSavingsGoals`. -/
def getSavingsGoals (s : Store) : List SavingsGoal :=
  match s (getUserScopedKey goalsKey s) with
  | some j => (goalsFromJson j).getD []
  | none => []

/-- `saveSavingsGoals`. -/
def saveSavingsGoals (goals : List SavingsGoal) (s : Store) : Store :=
  setItem (getUserScopedKey goalsKey s) (.arr (goals.map SavingsGoal.toJson)) s

/-- `getChatMessages` (with the optional `userId` filter). -/
def getChatMessages (s : Store) (userId : Option String) : List StoredChat :=
  match s (getUserScopedKey chatKey s) with
  | some j =>
    (match chatsFromJson j with
     | some allMessages =>
       (match userId with
        | some uid => allMessages.filter (fun m => m.userId == some uid)
        | none => allMessages)
     | none => [])
  | none => []

/-- `saveChatMessage`: append to the scoped message list. -/
def saveChatMessage (message : StoredChat) (s : Store) : Store :=
  let messages := getChatMessages s none ++ [message]
  setItem (getUserScopedKey chatKey s) (.arr (messages.map StoredChat.toJson)) s

/-- `clearAll`, in source order: the users key and the session key are
removed first, and only then is the active user id read back to delete the
scoped keys. -/
def clearAll (s : Store) : Store :=
  let s := removeItem usersKey s
  let s := removeItem sessionKey s
  match getActiveUserId s with
  | some userId =>
    removeItem (chatKey ++ "_" ++ userId)
      (removeItem (goalsKey ++ "_" ++ userId)
        (removeItem (finDataKey ++ "_" ++ userId) s))
  | none => s

/-- `handleSignIn` from the authentication form: look the email up, accept
when there is no stored password (absent or empty, both falsy) or the
stored password equals the input, and make the matched user active.
Returns the new storage and the success flag. -/
def handleSignIn (email password : String) (s : Store) : Store × Bool :=
  match getUserByEmail s email with
  | some existing =>
    if (match existing.password with
        | none => true
        | some p => p == "" || p == password) then
      (setActiveUser (some existing.id) s, true)
    else (s, false)
  | none => (s, false)

/-! ## Helper lemmas -/

/-- Strings with equal data are equal. -/
theorem strExt {a b : String} (h : a.data = b.data) : a = b := by
  cases a; cases b; simp_all

/-- A string with a non-empty left part of an append is non-empty. -/
theorem append_ne_left {a : String} (b : String) (h : a ≠ "") : a ++ b ≠ "" := by
  intro hab
  apply h
  have hd := congrArg String.data hab
  rw [String.data_append] at hd
  rcases List.append_eq_nil.mp hd with ⟨h1, _⟩
  exact strExt h1

/-- The greeting drawn from either greeting list is non-empty. -/
theorem greeting_ne (tone : String) (r : Fin 3) :
    ((if tone == "casual" then ["Hey!", "Hi there!", "What is up?"]
      else ["Hello!", "Greetings!", "Good day!"]).getD r.val "") ≠ "" := by
  rcases r with ⟨v, hv⟩
  by_cases h : tone == "casual" <;>
    simp only [h, if_true, if_false, Bool.false_eq_true] <;>
    interval_cases v <;> decide

/-- Every branch of `generateGeneralResponse` yields a non-empty string. -/
theorem generateGeneralResponse_ne (userMessage : String) (user : Option User)
    (fd : FinancialData) (tone cx : String) (hist : List ChatMessage) (r : Fin 3) :
    generateGeneralResponse userMessage user fd tone cx hist r ≠ "" := by
  unfold generateGeneralResponse
  dsimp only
  split
  · repeat apply append_ne_left
    exact greeting_ne tone r
  · split
    · decide
    · split
      · decide
      · split
        · repeat apply append_ne_left
          exact greeting_ne tone r
        · repeat apply append_ne_left
          exact greeting_ne tone r

/-- **C2.** The Advice Dispatcher is total: for every user message (empty,
whitespace, non-finance text included), every conversation history, user
context, financial snapshot and greeting draw, `AIService.generateResponse`
returns a response with a non-empty `content`, and that content always
comes from one of the three response sources (the data-answer path, the
knowledge-base path, or the canned general/clarification response) — the
Lean function is total, matching "terminates without throwing". -/
theorem c2_dispatcher_total (userMessage : String) (hist : List ChatMessage)
    (user : Option User) (fd : FinancialData) (r : Fin 3) :
    (generateResponseWith user fd r userMessage hist).content ≠ "" ∧
    ((generateResponseWith user fd r userMessage hist).content =
        answerSpecificQuestion userMessage user fd (getDemographicTone user).1 (getDemographicTone user).2 ∨
     (generateResponseWith user fd r userMessage hist).content =
        answerFinancialQuestion userMessage (jsTrim (jsToLower userMessage)) user fd
          (getDemographicTone user).1 (getDemographicTone user).2
          (jsToLower (joinSpace ((jsSliceLast 5 hist).map (·.content))) ++ " " ++ jsTrim (jsToLower userMessage)) ∨
     (generateResponseWith user fd r userMessage hist).content =
        generateGeneralResponse userMessage user fd
          (getDemographicTone user).1 (getDemographicTone user).2 hist r) := by
  unfold generateResponseWith
  dsimp only
  split
  · next hcond =>
    simp only [Bool.and_eq_true, bne_iff_ne, ne_eq] at hcond
    exact ⟨hcond.2.1, Or.inl rfl⟩
  · split
    · next hcond =>
      simp only [Bool.and_eq_true, bne_iff_ne, ne_eq] at hcond
      exact ⟨hcond.1.1, Or.inr (Or.inl rfl)⟩
    · exact ⟨generateGeneralResponse_ne userMessage user fd
          (getDemographicTone user).1 (getDemographicTone user).2 hist r,
        Or.inr (Or.inr rfl)⟩

/-- `find?` returns the element at index `i` when it satisfies the
predicate and no earlier element does. -/
theorem find?_of_first {α} (p : α → Bool) :
    ∀ (l : List α) (i : ℕ) (x : α), l[i]? = some x → p x = true →
      (∀ j, j < i → ∀ y, l[j]? = some y → p y = false) → l.find? p = some x := by
  intro l
  induction l with
  | nil => intro i x hx; simp at hx
  | cons a as ih =>
    intro i x hx hp hearlier
    cases i with
    | zero =>
      simp only [List.getElem?_cons_zero, Option.some.injEq] at hx
      subst hx
      simp [List.find?_cons, hp]
    | succ i =>
      have ha : p a = false := hearlier 0 (Nat.succ_pos i) a (by simp)
      simp only [List.getElem?_cons_succ] at hx
      rw [List.find?_cons, ha]
      exact ih i x hx hp (fun j hj y hy =>
        hearlier (j + 1) (Nat.succ_lt_succ hj) y (by simpa using hy))

set_option maxRecDepth 100000 in
unseal Rat.mul Rat.inv Rat.add Rat.sub in
/-- **C5.** Term matching is first-match-in-declared-order: if the key at
index `i` of the term table occurs in the (lowercased, trimmed) message and
no earlier key does, `answerFinancialQuestion` returns that key's handler
output; and for the message `I want to open a mutual fund` the returned
response is the mutual-fund explanation, not a generic fallback. -/
theorem c5_first_match_order :
    (∀ (userMessage message tone cx fullContext : String) (user : Option User) (fd : FinancialData)
        (i : ℕ) (term : String),
        (termKeys cx)[i]? = some term →
        strContains message term = true →
        (∀ j, j < i → strContains message ((termKeys cx).getD j "") = false) →
        ∃ h, (financialTerms cx)[i]? = some (term, h) ∧
          answerFinancialQuestion userMessage message user fd tone cx fullContext =
            h tone user fd) ∧
    (∀ r : Fin 3,
      (generateResponseWith none defaultFinancialData r "I want to open a mutual fund" []).content =
        explainMutualFund "friendly" "moderate") := by
  constructor
  · intro userMessage message tone cx fullContext user fd i term hterm hmatch hearlier
    have hmap : (financialTerms cx).map Prod.fst = termKeys cx := rfl
    rw [← hmap, List.getElem?_map] at hterm
    cases he : (financialTerms cx)[i]? with
    | none => rw [he] at hterm; simp at hterm
    | some e =>
      rw [he] at hterm
      simp only [Option.map_some', Option.some.injEq] at hterm
      subst hterm
      refine ⟨e.2, rfl, ?_⟩
      have hfind : (financialTerms cx).find? (fun e => strContains message e.1) = some e := by
        apply find?_of_first _ _ i e he hmatch
        intro j hj y hy
        have hkey : (termKeys cx).get? j = some y.1 := by
          rw [List.get?_eq_getElem?, ← hmap, List.getElem?_map, hy]; rfl
        have h2 := hearlier j hj
        rw [List.getD, hkey] at h2
        exact h2
      unfold answerFinancialQuestion
      rw [hfind]
  · decide

unseal Rat.mul Rat.inv Rat.add Rat.sub in
/-- **C3.** For every `FinancialData` with positive monthly income, the
budget summary's `savingsRate` is `(income - expenses) / income * 100`
rendered with `toFixed(1)` and `monthlySavings` is `income - expenses`; in
particular income 2000 and expenses 500 yield `"75.0"` and 1500. -/
theorem c3_savings_rate (mi me tb : ℚ) (eb : List BreakdownEntry)
    (ih : List IncomeEntry) (eh : List HistEntry) (hmi : 0 < mi) :
    (generateBudgetSummary ⟨tb, mi, me, eb, ih, eh⟩).savingsRate =
        ratToFixed1 ((mi - me) / mi * 100) ∧
    (generateBudgetSummary ⟨tb, mi, me, eb, ih, eh⟩).monthlySavings = mi - me ∧
    (generateBudgetSummary ⟨10000, 2000, 500, [], [], []⟩).savingsRate = "75.0" ∧
    (generateBudgetSummary ⟨10000, 2000, 500, [], [], []⟩).monthlySavings = 1500 := by
  refine ⟨?_, rfl, by decide, by decide⟩
  simp [generateBudgetSummary, savingsRateJs, JsNum.sub, JsNum.div, JsNum.mul,
    JsNum.toFixed1, hmi.ne']

/-- Witness for C3 at income 2000, expenses 500. -/
theorem c3_savings_rate_witness :
    (0 : ℚ) < 2000 ∧
    (generateBudgetSummary ⟨10000, 2000, 500, [], [], []⟩).savingsRate =
      ratToFixed1 ((2000 - 500) / 2000 * 100) :=
  ⟨by norm_num, (c3_savings_rate 2000 500 10000 [] [] [] (by norm_num)).1⟩

unseal Rat.mul Rat.inv Rat.add Rat.sub in
/-- **C4.** The code does not guard income = 0: the division propagates a
non-finite value, and the summary's `savingsRate` renders as the
non-numeric strings `-Infinity` (expenses positive) or `NaN` (expenses
zero) — there is no well-defined sentinel, contradicting the claim. -/
theorem c4_income_zero_not_guarded :
    (generateBudgetSummary ⟨10000, 0, 500, [], [], []⟩).savingsRate = "-Infinity" ∧
    (generateBudgetSummary ⟨10000, 0, 0, [], [], []⟩).savingsRate = "NaN" := by
  exact ⟨by decide, by decide⟩

/-- **C1.** Whenever the primary remote call fails in any way (non-ok
response, error field in the body, unrecognized body shape, cleaned text
empty or shorter than 10 characters, or the fetch throwing), the adapter
returns exactly the `AIResponse` produced by the rule-based
`aiService.generateResponse` on the same message and history; as a total
Lean function it never throws. -/
theorem c1_adapter_degrades_to_dispatcher (user : Option User) (fd : FinancialData) (r : Fin 3)
    (primary fallbackM : FetchResult) (userMessage : String) (hist : List ChatMessage)
    (h : RemoteCallFails primary fallbackM) :
    hfGenerateResponse user fd r primary fallbackM userMessage hist =
      generateResponseWith user fd r userMessage hist := by
  unfold hfGenerateResponse
  dsimp only
  rcases h with heff | ⟨st, body, heff, hfail⟩
  · rw [heff]
  · rw [heff]
    rcases hfail with hok | hbody | ⟨data, hbody, hrest⟩
    · simp [hok]
    · subst hbody
      by_cases hst : statusOk st <;> simp [hst]
    · subst hbody
      by_cases hst : statusOk st
      · rcases hrest with herr | herr | ⟨herr, hex⟩
        · simp [hst, herr]
        · simp [hst, herr]
        · rcases hex with hex | ⟨raw, hraw, hcl⟩
          · simp [hst, herr, hex]
          · rcases hcl with hcl | hcl
            · simp only [beq_iff_eq] at hcl
              simp [hst, herr, hraw, hcl]
            · simp only [beq_iff_eq] at hcl
              simp only [hst, herr, hraw]
              simp only [Bool.not_true, Bool.false_eq_true, if_false, Bool.or_eq_true,
                beq_iff_eq, decide_eq_true_eq]
              rw [if_pos (Or.inr hcl)]
      · simp [hst]

/-- Witness for C1: a rejected primary fetch makes the adapter return the
dispatcher's response verbatim. -/
theorem c1_adapter_degrades_to_dispatcher_witness :
    hfGenerateResponse none defaultFinancialData 0 .netError .netError "hello" [] =
      generateResponseWith none defaultFinancialData 0 "hello" [] :=
  c1_adapter_degrades_to_dispatcher none defaultFinancialData 0 .netError .netError "hello" []
    (Or.inl rfl)

set_option maxRecDepth 100000 in
unseal Rat.mul Rat.inv Rat.add Rat.sub in
/-- Witness for C5: `mutual fund` sits at index 2 of the table, matches the
example message, and no earlier key does. -/
theorem c5_first_match_order_witness :
    ∃ h, (financialTerms "moderate")[2]? = some ("mutual fund", h) ∧
      answerFinancialQuestion "I want to open a mutual fund" "i want to open a mutual fund" none
        defaultFinancialData "friendly" "moderate" "" =
        h "friendly" none defaultFinancialData :=
  c5_first_match_order.1 "I want to open a mutual fund" "i want to open a mutual fund" "friendly"
    "moderate" "" none defaultFinancialData 2 "mutual fund" (by decide) (by decide)
    (by decide)

/-! ## Store lemmas -/

/-- Reading back the key just written. -/
theorem setItem_get (k : String) (v : Json) (s : Store) : setItem k v s k = some v := by
  simp [setItem]

/-- Writing one key leaves every other key unchanged. -/
theorem setItem_get_ne {k k' : String} (v : Json) (s : Store) (h : k' ≠ k) :
    setItem k v s k' = s k' := by
  simp [setItem, h]

/-- Removing one key leaves every other key unchanged. -/
theorem removeItem_get_ne {k k' : String} (s : Store) (h : k' ≠ k) :
    removeItem k s k' = s k' := by
  simp [removeItem, h]

/-- Two appends with different characters at a common index of their left
parts are different strings. -/
theorem strNe_of_getElem {p q : String} (i : ℕ) (c c' : Char)
    (hp : p.data[i]? = some c) (hq : q.data[i]? = some c') (hne : c ≠ c') :
    ∀ u v : String, p ++ u ≠ q ++ v := by
  intro u v h
  have hip : i < p.data.length := (List.getElem?_eq_some.mp hp).1
  have hiq : i < q.data.length := (List.getElem?_eq_some.mp hq).1
  have hd := congrArg (fun s => s.data[i]?) h
  simp only [String.data_append] at hd
  rw [List.getElem?_append, if_pos hip, List.getElem?_append, if_pos hiq, hp, hq] at hd
  exact hne (Option.some.injEq .. ▸ hd)

/-- Scoped keys of the same base but different user ids differ. -/
theorem scoped_ne_of_uid {base u v : String} (h : u ≠ v) :
    base ++ "_" ++ u ≠ base ++ "_" ++ v := by
  intro heq
  apply h
  have hd := congrArg String.data heq
  simp only [String.data_append] at hd
  exact strExt (List.append_cancel_left hd)

/-- A longer left part of an append can never equal a shorter string. -/
theorem append_ne_of_longer {p q : String} (h : q.length < p.length) (u : String) :
    p ++ u ≠ q := by
  intro heq
  have := congrArg String.length heq
  rw [String.length_append] at this
  omega

/-- Every user-scoped key (of the three scoped bases) differs from the
session key, because the base alone is already longer. -/
theorem scopedKey_ne_session {base : String} (uid : String) (h : 19 < base.length) :
    base ++ "_" ++ uid ≠ sessionKey := by
  apply append_ne_of_longer
  rw [String.length_append]
  have hs : sessionKey.length = 19 := rfl
  omega

/-- Writing a non-session key does not change the active user. -/
theorem getActiveUserId_setItem {k : String} (v : Json) (s : Store) (h : k ≠ sessionKey) :
    getActiveUserId (setItem k v s) = getActiveUserId s := by
  unfold getActiveUserId
  rw [setItem_get_ne v s (Ne.symm h)]

/-! ## Serialization round-trips -/

/-- The `mapM` accumulator loop of a decoder over an encoded list. -/
theorem mapM_loop_encode {α : Type} (enc : α → Json) (dec : Json → Option α)
    (h : ∀ a, dec (enc a) = some a) :
    ∀ (l : List α) (acc : List α),
      List.mapM.loop dec (l.map enc) acc = some (acc.reverse ++ l) := by
  intro l
  induction l with
  | nil => intro acc; simp [List.mapM.loop]
  | cons a as ih =>
    intro acc
    simp [List.mapM.loop, h, ih]

/-- `mapM` of a decoder over an encoded list recovers the list. -/
theorem mapM_map_encode {α : Type} (enc : α → Json) (dec : Json → Option α)
    (h : ∀ a, dec (enc a) = some a) : ∀ l : List α, (l.map enc).mapM dec = some l := by
  intro l
  simpa using mapM_loop_encode enc dec h l []

/-- Round-trip of one breakdown entry. -/
theorem breakdownEntry_rt (e : BreakdownEntry) : BreakdownEntry.fromJson e.toJson = some e := rfl

/-- Round-trip of one income entry. -/
theorem incomeEntry_rt (e : IncomeEntry) : IncomeEntry.fromJson e.toJson = some e := rfl

/-- Round-trip of one expense-history entry. -/
theorem histEntry_rt (e : HistEntry) : HistEntry.fromJson e.toJson = some e := rfl

/-- Round-trip of a `FinancialData` record through its JSON encoding. -/
theorem financialData_rt (d : FinancialData) : FinancialData.fromJson d.toJson = some d := by
  obtain ⟨tb, mi, me, eb, ih, eh⟩ := d
  simp [FinancialData.toJson, FinancialData.fromJson, lookupField, Json.asNum,
    mapM_loop_encode _ _ breakdownEntry_rt, mapM_loop_encode _ _ incomeEntry_rt,
    mapM_loop_encode _ _ histEntry_rt]

/-- Round-trip of a demographic record. -/
theorem demographic_rt (d : Demographic) : Demographic.fromJson d.toJson = some d := by
  obtain ⟨ty, age, loc, occ⟩ := d
  cases age <;> cases loc <;> cases occ <;> rfl

/-- Round-trip of a `User` record. -/
theorem user_rt (u : User) : User.fromJson u.toJson = some u := by
  obtain ⟨id, email, fullName, pw, demo, goals, ca⟩ := u
  cases pw <;> cases goals <;> cases demo <;>
    simp [User.toJson, User.fromJson, lookupField, optField, Json.asStr,
      demographic_rt, mapM_loop_encode Json.str Json.asStr (fun a => rfl)]

/-- Round-trip of the users list. -/
theorem users_rt (us : List User) : usersFromJson (.arr (us.map User.toJson)) = some us := by
  simp [usersFromJson, mapM_loop_encode _ _ user_rt]

/-- **C6.** Store round-trip: under any fixed active user,
`saveFinancialData(d)` followed by `getFinancialData()` returns a value
equal field-by-field to `d`. -/
theorem c6_store_roundtrip (s : Store) (d : FinancialData) (uid : String)
    (h : getActiveUserId s = some uid) :
    getFinancialData (saveFinancialData d s) = d := by
  have hkey : getUserScopedKey finDataKey s = finDataKey ++ "_" ++ uid := by
    unfold getUserScopedKey
    rw [h]
  have hne : getUserScopedKey finDataKey s ≠ sessionKey := by
    rw [hkey]
    exact scopedKey_ne_session uid (by decide)
  have hsess := getActiveUserId_setItem (k := finDataKey ++ "_" ++ uid) d.toJson s
    (scopedKey_ne_session uid (by decide))
  unfold getFinancialData saveFinancialData getUserScopedKey
  simp only [h, hsess]
  rw [setItem_get]
  simp [financialData_rt]

/-- Witness for C6: a concrete store with active user `u1`. -/
theorem c6_store_roundtrip_witness :
    getActiveUserId (setActiveUser (some "u1") emptyStore) = some "u1" ∧
    getFinancialData (saveFinancialData defaultFinancialData (setActiveUser (some "u1") emptyStore)) =
      defaultFinancialData :=
  ⟨rfl, c6_store_roundtrip (setActiveUser (some "u1") emptyStore) defaultFinancialData "u1" rfl⟩

/-- A scoped key built from one of the three scoped bases never collides
with a scoped key of a different base, nor with the same base under a
different user id. -/
theorem scopedKey_disjoint {b1 b2 : String}
    (hb1 : b1 = finDataKey ∨ b1 = goalsKey ∨ b1 = chatKey)
    (hb2 : b2 = finDataKey ∨ b2 = goalsKey ∨ b2 = chatKey)
    {u v : String} (huv : b1 = b2 → u ≠ v) :
    b1 ++ "_" ++ u ≠ b2 ++ "_" ++ v := by
  rcases hb1 with h1 | h1 | h1 <;> rcases hb2 with h2 | h2 | h2 <;> subst h1 <;> subst h2
  · exact scoped_ne_of_uid (huv rfl)
  · exact strNe_of_getElem 7 'f' 's' (by decide) (by decide) (by decide) u v
  · exact strNe_of_getElem 7 'f' 'c' (by decide) (by decide) (by decide) u v
  · exact strNe_of_getElem 7 's' 'f' (by decide) (by decide) (by decide) u v
  · exact scoped_ne_of_uid (huv rfl)
  · exact strNe_of_getElem 7 's' 'c' (by decide) (by decide) (by decide) u v
  · exact strNe_of_getElem 7 'c' 'f' (by decide) (by decide) (by decide) u v
  · exact strNe_of_getElem 7 'c' 's' (by decide) (by decide) (by decide) u v
  · exact scoped_ne_of_uid (huv rfl)

/-- **C7.** User scoping: while `A` is the active user, each of the three
save operations writes only its `A`-suffixed key and leaves every
`B`-suffixed entry of any of the three scoped bases unchanged for every
other user id `B`; in particular reading financial data after switching the
active user to `B` is unaffected by a save performed under `A`. -/
theorem c7_user_scoping (s : Store) (A : String) (hA : getActiveUserId s = some A)
    (B : String) (hB : B ≠ A) (d : FinancialData) (gs : List SavingsGoal) (m : StoredChat) :
    (∀ k, saveFinancialData d s k ≠ s k → k = finDataKey ++ "_" ++ A) ∧
    (∀ k, saveSavingsGoals gs s k ≠ s k → k = goalsKey ++ "_" ++ A) ∧
    (∀ k, saveChatMessage m s k ≠ s k → k = chatKey ++ "_" ++ A) ∧
    (∀ base, (base = finDataKey ∨ base = goalsKey ∨ base = chatKey) →
      saveFinancialData d s (base ++ "_" ++ B) = s (base ++ "_" ++ B) ∧
      saveSavingsGoals gs s (base ++ "_" ++ B) = s (base ++ "_" ++ B) ∧
      saveChatMessage m s (base ++ "_" ++ B) = s (base ++ "_" ++ B)) ∧
    getFinancialData (setActiveUser (some B) (saveFinancialData d s)) =
      getFinancialData (setActiveUser (some B) s) := by
  have hfin : getUserScopedKey finDataKey s = finDataKey ++ "_" ++ A := by
    unfold getUserScopedKey; rw [hA]
  have hgoals : getUserScopedKey goalsKey s = goalsKey ++ "_" ++ A := by
    unfold getUserScopedKey; rw [hA]
  have hchat : getUserScopedKey chatKey s = chatKey ++ "_" ++ A := by
    unfold getUserScopedKey; rw [hA]
  refine ⟨?_, ?_, ?_, ?_, ?_⟩
  · intro k hk
    by_contra hne
    exact hk (setItem_get_ne _ _ (hfin ▸ hne))
  · intro k hk
    by_contra hne
    exact hk (setItem_get_ne _ _ (hgoals ▸ hne))
  · intro k hk
    by_contra hne
    exact hk (setItem_get_ne _ _ (hchat ▸ hne))
  · intro base hbase
    refine ⟨?_, ?_, ?_⟩
    · unfold saveFinancialData
      rw [hfin]
      exact setItem_get_ne _ _ (scopedKey_disjoint hbase (Or.inl rfl) (fun _ => hB))
    · unfold saveSavingsGoals
      rw [hgoals]
      exact setItem_get_ne _ _ (scopedKey_disjoint hbase (Or.inr (Or.inl rfl)) (fun _ => hB))
    · unfold saveChatMessage
      rw [hchat]
      exact setItem_get_ne _ _ (scopedKey_disjoint hbase (Or.inr (Or.inr rfl)) (fun _ => hB))
  · have hkeyB : ∀ t : Store, getActiveUserId (setActiveUser (some B) t) = some B := by
      intro t
      show getActiveUserId (setItem sessionKey (Json.str B) t) = some B
      unfold getActiveUserId
      rw [setItem_get]
    unfold getFinancialData
    rw [show getUserScopedKey finDataKey (setActiveUser (some B) (saveFinancialData d s)) =
          finDataKey ++ "_" ++ B by unfold getUserScopedKey; rw [hkeyB],
        show getUserScopedKey finDataKey (setActiveUser (some B) s) =
          finDataKey ++ "_" ++ B by unfold getUserScopedKey; rw [hkeyB]]
    have h1 : setActiveUser (some B) (saveFinancialData d s) (finDataKey ++ "_" ++ B) =
        s (finDataKey ++ "_" ++ B) := by
      show setItem sessionKey (Json.str B) (saveFinancialData d s) (finDataKey ++ "_" ++ B) =
        s (finDataKey ++ "_" ++ B)
      rw [setItem_get_ne _ _ (scopedKey_ne_session B (by decide))]
      unfold saveFinancialData
      rw [hfin]
      exact setItem_get_ne _ _ (scoped_ne_of_uid hB)
    have h2 : setActiveUser (some B) s (finDataKey ++ "_" ++ B) = s (finDataKey ++ "_" ++ B) := by
      show setItem sessionKey (Json.str B) s (finDataKey ++ "_" ++ B) = s (finDataKey ++ "_" ++ B)
      exact setItem_get_ne _ _ (scopedKey_ne_session B (by decide))
    rw [h1, h2]

/-- Witness for C7: concrete users `alice` (active) and `bob`; the save
under `alice` leaves the `bob`-scoped financial-data entry unchanged. -/
theorem c7_user_scoping_witness :
    "bob" ≠ "alice" ∧
    saveFinancialData defaultFinancialData (setActiveUser (some "alice") emptyStore)
        (finDataKey ++ "_" ++ "bob") =
      setActiveUser (some "alice") emptyStore (finDataKey ++ "_" ++ "bob") :=
  ⟨by decide,
    ((c7_user_scoping (setActiveUser (some "alice") emptyStore) "alice" rfl "bob" (by decide)
        defaultFinancialData [] ⟨"m1", "user", "hi", "t0", none⟩).2.2.2.1
      finDataKey (Or.inl rfl)).1⟩

/-- **C8.** `clearAll()` removes the global users key and the session key,
but it removes the session key *before* reading the active user id back
from storage, so the id is gone and the then-active user's scoped
FinancialData / SavingsGoals / ChatMessages keys are **not** removed: on a
store with active user `u1` and saved financial data, the scoped entry
survives `clearAll` — contradicting the claim and the code's own comment. -/
theorem c8_clearAll_leaves_scoped_keys :
    getActiveUserId (saveFinancialData defaultFinancialData
        (setActiveUser (some "u1") emptyStore)) = some "u1" ∧
    clearAll (saveFinancialData defaultFinancialData (setActiveUser (some "u1") emptyStore))
        usersKey = none ∧
    clearAll (saveFinancialData defaultFinancialData (setActiveUser (some "u1") emptyStore))
        sessionKey = none ∧
    clearAll (saveFinancialData defaultFinancialData (setActiveUser (some "u1") emptyStore))
        (finDataKey ++ "_u1") =
      some (FinancialData.toJson defaultFinancialData) := by
  refine ⟨rfl, rfl, rfl, rfl⟩

/-- `addUser` appends the new record to the stored list. -/
theorem getAllUsers_addUser (u : User) (s : Store) :
    getAllUsers (addUser u s) = getAllUsers s ++ [u] := by
  unfold addUser saveAllUsers getAllUsers
  rw [setItem_get]
  dsimp only
  rw [users_rt]
  rfl

/-- **C9 counterexample.** The state reached by adding the same user record
twice (a sequence of Persistent-Store operations) holds two records with
the same id — the store does not enforce user-id uniqueness. -/
theorem c9_duplicate_ids_reachable :
    ((getAllUsers (addUser ⟨"u1", "a@b.c", "A", none, none, none, "t0"⟩
        (addUser ⟨"u1", "a@b.c", "A", none, none, none, "t0"⟩ emptyStore))).map User.id =
      ["u1", "u1"]) ∧
    ¬ ((getAllUsers (addUser ⟨"u1", "a@b.c", "A", none, none, none, "t0"⟩
        (addUser ⟨"u1", "a@b.c", "A", none, none, none, "t0"⟩ emptyStore))).map User.id).Nodup := by
  exact ⟨rfl, by decide⟩

/-- **C9 (amended).** The store does not enforce id uniqueness: any
sequence of `addUser` calls simply appends the given records, so the stored
ids are exactly the previously stored ids followed by the inserted ones —
they are pairwise distinct exactly when the store contents and the inserted
records carry pairwise distinct ids, which the store leaves to its
callers. -/
theorem c9_addUser_appends (s : Store) (l : List User) :
    getAllUsers (l.foldl (fun st u => addUser u st) s) = getAllUsers s ++ l ∧
    (((getAllUsers (l.foldl (fun st u => addUser u st) s)).map User.id).Nodup ↔
      ((getAllUsers s ++ l).map User.id).Nodup) := by
  have happ : ∀ (l : List User) (s : Store),
      getAllUsers (l.foldl (fun st u => addUser u st) s) = getAllUsers s ++ l := by
    intro l
    induction l with
    | nil => intro s; simp
    | cons a as ih =>
      intro s
      simp only [List.foldl_cons]
      rw [ih, getAllUsers_addUser]
      simp
  exact ⟨happ l s, by rw [happ l s]⟩

/-- **C10.** Sign-in with the email of a matched record whose password is
absent or empty succeeds for any entered password, and the matched user
becomes the active user; `getUserByEmail` is the first stored record whose
email matches. -/
theorem c10_passwordless_signin (s : Store) (email pw : String) (u : User)
    (hfind : getUserByEmail s email = some u)
    (hpw : u.password = none ∨ u.password = some "") :
    (handleSignIn email pw s).2 = true ∧
    getActiveUserId (handleSignIn email pw s).1 = some u.id ∧
    getUserByEmail s email = (getAllUsers s).find? (fun x => x.email == email) := by
  have hcond : (match u.password with
      | none => true
      | some p => p == "" || p == pw) = true := by
    rcases hpw with h | h <;> simp [h]
  have hfirst : getUserByEmail s email = (getAllUsers s).find? (fun x => x.email == email) := rfl
  refine ⟨?_, ?_, hfirst⟩
  · unfold handleSignIn
    rw [hfind]
    simp [hcond]
  · unfold handleSignIn
    rw [hfind]
    simp only [hcond, if_true]
    show getActiveUserId (setItem sessionKey (Json.str u.id) s) = some u.id
    unfold getActiveUserId
    rw [setItem_get]

/-- Witness for C10: a stored user without a password signs in with an
arbitrary password and becomes active. -/
theorem c10_passwordless_signin_witness :
    getUserByEmail (addUser ⟨"u1", "a@b.c", "Alice", none, none, none, "t0"⟩ emptyStore) "a@b.c" =
      some ⟨"u1", "a@b.c", "Alice", none, none, none, "t0"⟩ ∧
    (handleSignIn "a@b.c" "whatever"
        (addUser ⟨"u1", "a@b.c", "Alice", none, none, none, "t0"⟩ emptyStore)).2 = true ∧
    getActiveUserId (handleSignIn "a@b.c" "whatever"
        (addUser ⟨"u1", "a@b.c", "Alice", none, none, none, "t0"⟩ emptyStore)).1 = some "u1" :=
  ⟨rfl,
    (c10_passwordless_signin
        (addUser ⟨"u1", "a@b.c", "Alice", none, none, none, "t0"⟩ emptyStore) "a@b.c" "whatever"
        ⟨"u1", "a@b.c", "Alice", none, none, none, "t0"⟩ rfl (Or.inl rfl)).1,
    (c10_passwordless_signin
        (addUser ⟨"u1", "a@b.c", "Alice", none, none, none, "t0"⟩ emptyStore) "a@b.c" "whatever"
        ⟨"u1", "a@b.c", "Alice", none, none, none, "t0"⟩ rfl (Or.inl rfl)).2.1⟩

end Finova
